import Mathlib

/-!
# STM32F4 USB bootloader: command-protocol core

A shallow embedding of the protocol core of the bootloader
(`Core/Src/parser.c`, `Core/Src/data_process.c`, `Core/Src/boot.c`,
`Core/Src/usb_handler.c`, with the types of `Core/Inc/data_models.h` and the
constants of `Core/Inc/boot.h`), followed by theorems about it.

Conventions of the embedding.

* A `uint8_t`, `uint16_t` or `uint32_t` value is a `Nat`; a conversion to a
  narrower type is written `% 2^w` at the place the C code converts.
* The two globals `m_device` and `m_message`, the transmit buffer `buff_tx`
  and the record of calls made to the hardware layer form one `World`, which
  every function takes and returns.
* A byte buffer handed over by pointer is a `List Nat`; reading an index that
  is not inside the list has no defined result (`none`).
* The unions `models_u16_u`, `models_u32_u` and `BL_Data_u` are stored as
  their bytes; the integer views are little-endian, as on the Cortex-M4 the
  code is built for.
* The HAL and the USB stack are outside the code: a call to them is appended
  to `World.calls`, and the statuses that `HAL_FLASH_Program` and
  `HAL_FLASHEx_Erase` return are taken from the stream `World.hal`.
-/

namespace Bootloader

/-! ## data_models.h -/

/-- Start of frame for host to device messages. -/
def HOST_CMD_START_BYTE : Nat := 0xA2

/-- Start of frame for device to host responses. -/
def BOOTLOADER_RESP_START_BYTE : Nat := 0xA3

/-- End of frame for device to host responses. -/
def BOOTLOADER_RESP_END_BYTE : Nat := 0x25

/-- Values of `Device_Command_Target_e`. -/
def TARGET_FLASH_ERASE : Nat := 0x01
def TARGET_MEM_WRITE : Nat := 0x02
def TARGET_JUMP_APP : Nat := 0x03
def TARGET_CHIP_RESET : Nat := 0x04
def TARGET_GET_STATUS : Nat := 0x05
def UNIT_ADDRESS_6 : Nat := 0x06
def UNIT_ADDRESS_7 : Nat := 0x08
def TARGET_INVALID : Nat := 0xFF

inductive BL_Message_State_e where
  | WAIT_FOR_MESSAGE
  | MESSAGE_OK
deriving DecidableEq

inductive BL_Error_Handler_e where
  | BL_OK
  | BL_ERR_INVALID_START
  | BL_ERR_INVALID_END
  | BL_ERR_INVALID_TARGET
  | BL_ERR_INVALID_ADDRESS
  | BL_ERR_INVALID_CMD_TYPE
  | BL_ERR_INVALID_DATA_TYPE
  | BL_ERR_INVALID_DATA_SIZE
  | BL_ERR_INVALID_FORMAT
  | BL_ERR_FLASH_ERASE
  | BL_ERR_FLASH_WRITE
  | BL_ERR_TIMEOUT
deriving DecidableEq

/-- Numeric value of an error code: the enumeration starts at `BL_OK = 0` and counts up. -/
def BL_Error_Handler_e.toNat : BL_Error_Handler_e → Nat
  | .BL_OK => 0
  | .BL_ERR_INVALID_START => 1
  | .BL_ERR_INVALID_END => 2
  | .BL_ERR_INVALID_TARGET => 3
  | .BL_ERR_INVALID_ADDRESS => 4
  | .BL_ERR_INVALID_CMD_TYPE => 5
  | .BL_ERR_INVALID_DATA_TYPE => 6
  | .BL_ERR_INVALID_DATA_SIZE => 7
  | .BL_ERR_INVALID_FORMAT => 8
  | .BL_ERR_FLASH_ERASE => 9
  | .BL_ERR_FLASH_WRITE => 10
  | .BL_ERR_TIMEOUT => 11

inductive BL_Device_Comm_Status_e where
  | COMM_ONLINE
  | COMM_OFFLINE
deriving DecidableEq

/-- Values of `BL_Command_Type_e`. -/
def CMD_TYPE_UNKNOWN : Nat := 0
def CMD_TYPE_READ : Nat := 1
def CMD_TYPE_WRITE : Nat := 2
def CMD_TYPE_RESPONSE : Nat := 3

/-- Values of `BL_Data_Type_e`. -/
def DATA_TYPE_UNKNOWN : Nat := 0
def DATA_TYPE_CHAR : Nat := 1
def DATA_TYPE_U8 : Nat := 2
def DATA_TYPE_I16 : Nat := 3
def DATA_TYPE_U16 : Nat := 4
def DATA_TYPE_I32 : Nat := 5
def DATA_TYPE_U32 : Nat := 6
def DATA_TYPE_FLOAT : Nat := 7
def DATA_TYPE_BYTE_ARRAY : Nat := 8

/-- The union of a `uint16_t` and `uint8_t b[2]`, held as its two bytes. -/
structure models_u16_u where
  b0 : Nat
  b1 : Nat
deriving DecidableEq

/-- The `u16` member: the two bytes read little-endian. -/
def models_u16_u.u16 (x : models_u16_u) : Nat := x.b0 + 2 ^ 8 * x.b1

/-- Assignment to the `u16` member. -/
def models_u16_u.of_u16 (v : Nat) : models_u16_u :=
  { b0 := v % 256, b1 := v / 2 ^ 8 % 256 }

/-- The union of a `uint32_t` and `uint8_t b[4]`, held as its four bytes.
`BL_Data_u` has the same `u32` and `b` members and is embedded by the same
structure. -/
structure models_u32_u where
  b0 : Nat
  b1 : Nat
  b2 : Nat
  b3 : Nat
deriving DecidableEq

/-- The `u32` member: the four bytes read little-endian. -/
def models_u32_u.u32 (x : models_u32_u) : Nat :=
  x.b0 + 2 ^ 8 * x.b1 + 2 ^ 16 * x.b2 + 2 ^ 24 * x.b3

/-- Assignment to the `u32` member. -/
def models_u32_u.of_u32 (v : Nat) : models_u32_u :=
  { b0 := v % 256, b1 := v / 2 ^ 8 % 256, b2 := v / 2 ^ 16 % 256, b3 := v / 2 ^ 24 % 256 }

/-- The member `b` used as a pointer to four bytes. -/
def models_u32_u.b (x : models_u32_u) : List Nat := [x.b0, x.b1, x.b2, x.b3]

abbrev BL_Data_u := models_u32_u

structure BL_Device_Comm_State_t where
  status : BL_Device_Comm_Status_e
  last_rx_time : Nat
deriving DecidableEq

structure BL_Device_t where
  comm_state : BL_Device_Comm_State_t
  message_state : BL_Message_State_e
  last_error : BL_Error_Handler_e
  error_counter : Nat
deriving DecidableEq

structure BL_Message_Structure_t where
  command_number : models_u16_u
  target : Nat
  address : models_u32_u
  command_type : Nat
  data_type : Nat
  data_length : Nat
  data : BL_Data_u
deriving DecidableEq

/-! ## boot.h -/

def F4_SECTOR_0 : Nat := 0x08000000
def F4_SECTOR_1 : Nat := 0x08004000
def F4_SECTOR_2 : Nat := 0x08008000
def F4_SECTOR_3 : Nat := 0x0800C000
def F4_SECTOR_4 : Nat := 0x08010000
def F4_SECTOR_5 : Nat := 0x08020000
def F4_SECTOR_6 : Nat := 0x08040000
def F4_SECTOR_7 : Nat := 0x08060000
def F4_SECTOR_8 : Nat := 0x08080000
def F4_SECTOR_9 : Nat := 0x080A0000
def F4_SECTOR_10 : Nat := 0x08C00000
def F4_SECTOR_11 : Nat := 0x08E00000

def APP_START_BASE_ADDRESS : Nat := F4_SECTOR_2

def INVALID_SECTOR : Nat := 0x04

/-- The value selected by `STM32F407VGTx`. -/
def TOTAL_SECTORS : Nat := 11

/-- Size of the last sector (sector 11) as boot.h documents it: 128 Kbytes. -/
def F4_SECTOR_11_SIZE : Nat := 128 * 1024

/-- An address lies in the flash geometry of boot.h: from the start of sector 0
up to the end of the last sector. -/
def in_flash (a : Nat) : Prop := F4_SECTOR_0 ≤ a ∧ a < F4_SECTOR_11 + F4_SECTOR_11_SIZE

instance (a : Nat) : Decidable (in_flash a) :=
  inferInstanceAs (Decidable (F4_SECTOR_0 ≤ a ∧ a < F4_SECTOR_11 + F4_SECTOR_11_SIZE))

/-! ## The hardware layer -/

/-- The four status LEDs of the board. -/
inductive Led where
  | LED1
  | LED2
  | LED3
  | LED4
deriving DecidableEq

/-- The member `TypeErase` of the HAL erase descriptor. -/
inductive FLASH_TypeErase where
  | FLASH_TYPEERASE_SECTORS
  | FLASH_TYPEERASE_MASSERASE
deriving DecidableEq

/-- The value `FLASH_BANK_1` of the HAL. -/
def FLASH_BANK_1 : Nat := 1

/-- The value `FLASH_VOLTAGE_RANGE_3` of the HAL. -/
def FLASH_VOLTAGE_RANGE_3 : Nat := 2

/-- The value `HAL_OK` of `HAL_StatusTypeDef`. -/
def HAL_OK : Nat := 0

/-- The erase descriptor as `flash_erase` hands it to `HAL_FLASHEx_Erase`.
A member the code has not assigned is `none`. -/
structure FLASH_EraseInitTypeDef where
  TypeErase : FLASH_TypeErase
  Banks : Nat
  Sector : Option Nat
  NbSectors : Option Nat
  VoltageRange : Nat
deriving DecidableEq

/-- One call made by the core to the HAL, the USB stack or the application.
`set_MSP a` loads the main stack pointer with the word stored at `a`,
`set_VTOR v` writes `v` to `SCB->VTOR`, and `app_reset_handler a` calls the
function whose address is the word stored at `a`. -/
inductive HwCall where
  | HAL_GPIO_WritePin (led : Led) (set : Bool)
  | HAL_FLASH_Unlock
  | HAL_FLASH_Lock
  | HAL_FLASH_Program (address : Nat) (data : Nat)
  | HAL_FLASHEx_Erase (init : FLASH_EraseInitTypeDef)
  | CDC_Transmit_FS (buf : List Nat) (len : Nat)
  | HAL_Delay (ms : Nat)
  | set_MSP (loaded_from : Nat)
  | set_VTOR (value : Nat)
  | app_reset_handler (loaded_from : Nat)
deriving DecidableEq

/-- The globals of the core and its environment.
`calls` lists the hardware calls made so far, oldest first; `hal n` is the
status the `n`-th of the coming status-returning flash calls will report. -/
structure World where
  m_device : BL_Device_t
  m_message : BL_Message_Structure_t
  buff_tx : List Nat
  calls : List HwCall
  hal : Nat → Nat

/-- Record a call to the hardware layer. -/
def World.call (w : World) (c : HwCall) : World :=
  { w with calls := w.calls ++ [c] }

/-- Take the status that the next status-returning flash call reports. -/
def World.next_status (w : World) : Nat × World :=
  (w.hal 0, { w with hal := fun n => w.hal (n + 1) })

/-- Read `buf[i]` through a pointer to a buffer holding the bytes `buf`. -/
def rd (buf : List Nat) (i : Int) : Option Nat :=
  if 0 ≤ i then buf[i.toNat]? else none

/-- The operator `&&` of C: the right operand is read only when the left is true. -/
def sc_and (a b : Option Bool) : Option Bool :=
  a.bind fun x => if x then b else some false

/-! ## parser.c -/

def MESSAGE_LENGTH : Nat := 15

def pre_process_message (buff : List Nat) (w : World) : Option World := do
  let c0 ← rd buff 1
  let c1 ← rd buff 2
  let t ← rd buff 3
  let a0 ← rd buff 4
  let a1 ← rd buff 5
  let a2 ← rd buff 6
  let a3 ← rd buff 7
  let ct ← rd buff 8
  let dt ← rd buff 9
  let d0 ← rd buff 10
  let d1 ← rd buff 11
  let d2 ← rd buff 12
  let d3 ← rd buff 13
  pure { w with m_message :=
    { w.m_message with
      command_number := { b0 := c0, b1 := c1 }
      target := t
      address := { b0 := a0, b1 := a1, b2 := a2, b3 := a3 }
      command_type := ct
      data_type := dt
      data := { b0 := d0, b1 := d1, b2 := d2, b3 := d3 } } }

/-- Assignment to `m_device.last_error`. -/
def World.set_last_error (w : World) (e : BL_Error_Handler_e) : World :=
  { w with m_device := { w.m_device with last_error := e } }

/-- Assignment to `m_device.message_state`. -/
def World.set_message_state (w : World) (s : BL_Message_State_e) : World :=
  { w with m_device := { w.m_device with message_state := s } }

/-- Assignment to `m_device.comm_state.last_rx_time`. -/
def World.set_last_rx_time (w : World) (t : Nat) : World :=
  { w with m_device := { w.m_device with
      comm_state := { w.m_device.comm_state with last_rx_time := t } } }

def parse_message (raw_buff : List Nat) (len : Nat) (w : World) : Option World :=
  if w.m_device.message_state = BL_Message_State_e.WAIT_FOR_MESSAGE then
    let w := w.set_last_rx_time 0
    (sc_and ((rd raw_buff 0).map fun x => x != BOOTLOADER_RESP_START_BYTE)
        ((rd raw_buff ((len : Int) - 1)).map fun x => x == BOOTLOADER_RESP_END_BYTE)).bind
    fun bad_start =>
    if bad_start then
      some ((w.set_last_error .BL_ERR_INVALID_START).set_message_state .MESSAGE_OK)
    else
    (sc_and ((rd raw_buff 0).map fun x => x == BOOTLOADER_RESP_START_BYTE)
        ((rd raw_buff ((len : Int) - 1)).map fun x => x != BOOTLOADER_RESP_END_BYTE)).bind
    fun bad_end =>
    if bad_end then
      some ((w.set_last_error .BL_ERR_INVALID_END).set_message_state .MESSAGE_OK)
    else if len ≠ MESSAGE_LENGTH then
      some ((w.set_last_error .BL_ERR_INVALID_FORMAT).set_message_state .MESSAGE_OK)
    else
    (sc_and (sc_and ((rd raw_buff 0).map fun x => x == BOOTLOADER_RESP_START_BYTE)
        ((rd raw_buff ((len : Int) - 1)).map fun x => x == BOOTLOADER_RESP_END_BYTE))
        (some (len == MESSAGE_LENGTH))).bind
    fun all_ok =>
    if all_ok then
      (pre_process_message raw_buff w).map fun w =>
        (w.set_last_error .BL_OK).set_message_state .MESSAGE_OK
    else
      some ((w.set_last_error .BL_ERR_INVALID_FORMAT).set_message_state .MESSAGE_OK)
  else
    some w

/-! ## usb_handler.c -/

def status_control (w : World) : World :=
  if w.m_device.comm_state.last_rx_time ≥ 1000 then
    { w with m_device := { w.m_device with
        comm_state := { status := .COMM_OFFLINE, last_rx_time := 1000 } } }
  else
    { w with m_device := { w.m_device with
        comm_state := { status := .COMM_ONLINE
                        last_rx_time := (w.m_device.comm_state.last_rx_time + 1) % 2 ^ 32 } } }

/-! ## boot.c -/

/-- How a call of a function of the core ends. -/
inductive Exec (α : Type) where
  /-- The function returns `v`. -/
  | returned (v : α) (w : World)
  /-- Control has left the bootloader for the application and does not come back. -/
  | no_return (w : World)
  /-- The function read outside a buffer it was given. -/
  | undefined

/-- The state of the globals and the call record when the call ends, if defined. -/
def Exec.world {α : Type} : Exec α → Option World
  | .returned _ w => some w
  | .no_return w => some w
  | .undefined => none

/-- The value returned, if the call returns. -/
def Exec.value {α : Type} : Exec α → Option α
  | .returned v _ => some v
  | .no_return _ => none
  | .undefined => none

/-- The application takes over; the loop after the call of its reset handler is
reached only if the application returns and is not embedded. -/
def jump_to_user_app (w : World) : World :=
  let w := w.call (.set_MSP APP_START_BASE_ADDRESS)
  let w := w.call (.set_VTOR APP_START_BASE_ADDRESS)
  w.call (.app_reset_handler (APP_START_BASE_ADDRESS + 4))

/-- The `for` loop of `mem_write`, with `n` iterations left and loop variable `i`. -/
def mem_write_loop (mem_value : List Nat) (mem_address : Nat) :
    Nat → Nat → Nat → World → Option (Nat × World)
  | 0, _, status, w => some (status, w)
  | n + 1, i, _, w =>
    (rd mem_value i).bind fun v =>
      let w := w.call (.HAL_FLASH_Program ((mem_address + i) % 2 ^ 32) v)
      let r := w.next_status
      mem_write_loop mem_value mem_address n (i + 1) (r.1 % 256) r.2

def mem_write (mem_value : List Nat) (mem_address len : Nat) (w : World) :
    Option (Nat × World) :=
  let w := w.call (.HAL_GPIO_WritePin .LED2 true)
  let status := HAL_OK
  let w := w.call .HAL_FLASH_Unlock
  (mem_write_loop mem_value mem_address len 0 status w).map fun r =>
    let w := r.2.call .HAL_FLASH_Lock
    let w := w.call (.HAL_GPIO_WritePin .LED2 false)
    (r.1, w)

def flash_erase (sector_number number_of_sector : Nat) (w : World) : Nat × World :=
  let w := w.call (.HAL_GPIO_WritePin .LED2 true)
  if number_of_sector > TOTAL_SECTORS then
    (INVALID_SECTOR, w)
  else if sector_number = 0xff ∨ sector_number < 8 then
    let EraseInitStruct : FLASH_EraseInitTypeDef :=
      if sector_number = 0xff then
        { TypeErase := .FLASH_TYPEERASE_MASSERASE
          Sector := none
          NbSectors := none
          Banks := FLASH_BANK_1
          VoltageRange := FLASH_VOLTAGE_RANGE_3 }
      else
        let remaining_sector := (8 - sector_number) % 256
        let number_of_sector :=
          if number_of_sector > remaining_sector then remaining_sector else number_of_sector
        { TypeErase := .FLASH_TYPEERASE_SECTORS
          Sector := some sector_number
          NbSectors := some number_of_sector
          Banks := FLASH_BANK_1
          VoltageRange := FLASH_VOLTAGE_RANGE_3 }
    let w := w.call .HAL_FLASH_Unlock
    let w := w.call (.HAL_FLASHEx_Erase EraseInitStruct)
    let r := w.next_status
    let status := r.1 % 256
    let w := r.2.call .HAL_FLASH_Lock
    let w := w.call (.HAL_GPIO_WritePin .LED2 false)
    (status, w)
  else
    (INVALID_SECTOR, w)

/-! ## data_process.c -/

/-- The assignments that end `response_message` and `handle_error`. -/
def clear_message (m : BL_Message_Structure_t) : BL_Message_Structure_t :=
  { m with
    command_number := models_u16_u.of_u16 0
    target := 0
    address := models_u32_u.of_u32 0
    command_type := CMD_TYPE_UNKNOWN
    data_type := DATA_TYPE_UNKNOWN
    data := models_u32_u.of_u32 0 }

def response_message (w : World) : World :=
  let m := w.m_message
  let m := { m with command_type := CMD_TYPE_RESPONSE }
  let buff_tx : List Nat :=
    [ BOOTLOADER_RESP_START_BYTE,
      m.command_number.b0, m.command_number.b1,
      m.target % 256,
      m.address.b0, m.address.b1, m.address.b2, m.address.b3,
      m.command_type % 256,
      m.data_type % 256,
      m.data.b0, m.data.b1, m.data.b2, m.data.b3,
      BOOTLOADER_RESP_END_BYTE ]
  let w := { w with m_message := m, buff_tx := buff_tx }
  let w := w.call (.CDC_Transmit_FS w.buff_tx 15)
  { w with m_message := clear_message w.m_message }

def handle_error (err : BL_Error_Handler_e) (w : World) : World :=
  let m := w.m_message
  let m := { m with address := models_u32_u.of_u32 TARGET_INVALID }
  let m := { m with command_type := CMD_TYPE_RESPONSE }
  let m := { m with data_type := DATA_TYPE_U8 }
  let buff_tx : List Nat :=
    [ BOOTLOADER_RESP_START_BYTE,
      m.command_number.b0, m.command_number.b1,
      m.target % 256,
      m.address.b0, m.address.b1, m.address.b2, m.address.b3,
      m.command_type % 256,
      m.data_type % 256,
      err.toNat % 256, 0, 0, 0,
      BOOTLOADER_RESP_END_BYTE ]
  let w := { w with m_message := m, buff_tx := buff_tx }
  let w := w.call (.CDC_Transmit_FS w.buff_tx 15)
  let w := { w with m_message := clear_message w.m_message }
  { w with m_device := { w.m_device with
      error_counter := (w.m_device.error_counter + 1) % 2 ^ 32 } }

def read_process_data (unit_adress : Nat) (_w : World) : Nat :=
  if unit_adress = TARGET_FLASH_ERASE then BL_Error_Handler_e.BL_OK.toNat
  else if unit_adress = TARGET_MEM_WRITE then BL_Error_Handler_e.BL_OK.toNat
  else if unit_adress = TARGET_CHIP_RESET then BL_Error_Handler_e.BL_OK.toNat
  else if unit_adress = TARGET_JUMP_APP then BL_Error_Handler_e.BL_OK.toNat
  else if unit_adress = TARGET_GET_STATUS then BL_Error_Handler_e.BL_OK.toNat
  else if unit_adress = UNIT_ADDRESS_6 then BL_Error_Handler_e.BL_OK.toNat
  else if unit_adress = UNIT_ADDRESS_7 then BL_Error_Handler_e.BL_OK.toNat
  else BL_Error_Handler_e.BL_ERR_INVALID_TARGET.toNat

def write_process_data (unit_adress : Nat) (w : World) : Exec Nat :=
  if unit_adress = TARGET_FLASH_ERASE then
    let r := flash_erase w.m_message.address.b0 w.m_message.data.b0 w
    .returned r.1 r.2
  else if unit_adress = TARGET_MEM_WRITE then
    match mem_write w.m_message.data.b w.m_message.address.u32 4 w with
    | some r => .returned r.1 r.2
    | none => .undefined
  else if unit_adress = TARGET_JUMP_APP then
    let w := response_message w
    let w := w.call (.HAL_Delay 100)
    .no_return (jump_to_user_app w)
  else if unit_adress = TARGET_CHIP_RESET then .returned BL_Error_Handler_e.BL_OK.toNat w
  else if unit_adress = TARGET_GET_STATUS then .returned BL_Error_Handler_e.BL_OK.toNat w
  else if unit_adress = UNIT_ADDRESS_6 then .returned BL_Error_Handler_e.BL_OK.toNat w
  else if unit_adress = UNIT_ADDRESS_7 then .returned BL_Error_Handler_e.BL_OK.toNat w
  else .returned BL_Error_Handler_e.BL_ERR_INVALID_TARGET.toNat w

def process_data (w : World) : Exec Nat :=
  if w.m_message.command_type = CMD_TYPE_READ then
    .returned (read_process_data w.m_message.target w) w
  else if w.m_message.command_type = CMD_TYPE_WRITE then
    write_process_data w.m_message.target w
  else
    .returned BL_Error_Handler_e.BL_ERR_INVALID_CMD_TYPE.toNat w

/-! ## Observations on the call record -/

/-- The addresses of the byte-program calls of a call record, in order. -/
def program_addresses : List HwCall → List Nat
  | [] => []
  | .HAL_FLASH_Program a _ :: cs => a :: program_addresses cs
  | _ :: cs => program_addresses cs

/-- The erase descriptors handed to `HAL_FLASHEx_Erase` in a call record, in order. -/
def erase_requests : List HwCall → List FLASH_EraseInitTypeDef
  | [] => []
  | .HAL_FLASHEx_Erase d :: cs => d :: erase_requests cs
  | _ :: cs => erase_requests cs

/-- The frames handed to `CDC_Transmit_FS` in a call record, in order: the first
`len` bytes of the buffer passed. -/
def transmitted : List HwCall → List (List Nat)
  | [] => []
  | .CDC_Transmit_FS buf len :: cs => buf.take len :: transmitted cs
  | _ :: cs => transmitted cs

/-- A world at reset: globals zero-initialised, nothing called yet, and a flash
that reports `HAL_OK` to every call. -/
def world0 : World :=
  { m_device :=
      { comm_state := { status := .COMM_ONLINE, last_rx_time := 0 }
        message_state := .WAIT_FOR_MESSAGE
        last_error := .BL_OK
        error_counter := 0 }
    m_message :=
      { command_number := { b0 := 0, b1 := 0 }
        target := 0
        address := { b0 := 0, b1 := 0, b2 := 0, b3 := 0 }
        command_type := 0
        data_type := 0
        data_length := 0
        data := { b0 := 0, b1 := 0, b2 := 0, b3 := 0 } }
    buff_tx := List.replicate 15 0
    calls := []
    hal := fun _ => HAL_OK }

/-- The frame of the scenario of the specification, with the host start byte. -/
def scenario_frame : List Nat :=
  [0xA2, 0x01, 0x00, 0x02, 0x10, 0x00, 0x00, 0x08, 0x02, 0x06, 0xAA, 0xBB, 0xCC, 0xDD, 0x25]

/-- The scenario frame with the start byte that `parse_message` tests for. -/
def device_start_frame : List Nat :=
  [0xA3, 0x01, 0x00, 0x02, 0x10, 0x00, 0x00, 0x08, 0x02, 0x06, 0xAA, 0xBB, 0xCC, 0xDD, 0x25]

/-- The world `parse_message` leaves when it accepts a 15-byte frame. -/
def accepted_world (x1 x2 x3 x4 x5 x6 x7 x8 x9 x10 x11 x12 x13 : Nat) (w : World) : World :=
  { w with
    m_device := { w.m_device with
      comm_state := { w.m_device.comm_state with last_rx_time := 0 }
      last_error := .BL_OK
      message_state := .MESSAGE_OK }
    m_message := { w.m_message with
      command_number := { b0 := x1, b1 := x2 }
      target := x3
      address := { b0 := x4, b1 := x5, b2 := x6, b3 := x7 }
      command_type := x8
      data_type := x9
      data := { b0 := x10, b1 := x11, b2 := x12, b3 := x13 } } }

/-- A well-formed write frame whose address field is 0x20000000, outside flash. -/
def sram_write_frame : List Nat :=
  [0xA3, 0x01, 0x00, 0x02, 0x00, 0x00, 0x00, 0x20, 0x02, 0x06, 0xAA, 0xBB, 0xCC, 0xDD, 0x25]

/-- The erase descriptor of a mass erase as `flash_erase` builds it. -/
def mass_erase_descriptor : FLASH_EraseInitTypeDef :=
  { TypeErase := .FLASH_TYPEERASE_MASSERASE
    Banks := FLASH_BANK_1
    Sector := none
    NbSectors := none
    VoltageRange := FLASH_VOLTAGE_RANGE_3 }

/-- A call that goes to the flash controller: unlock, lock, program or erase. -/
def is_flash_call : HwCall → Bool
  | .HAL_FLASH_Unlock => true
  | .HAL_FLASH_Lock => true
  | .HAL_FLASH_Program _ _ => true
  | .HAL_FLASHEx_Erase _ => true
  | _ => false

/-- The flash calls of a call record, in order. -/
def flash_calls (cs : List HwCall) : List HwCall := cs.filter is_flash_call

/-- The erase descriptor of a sector erase as `flash_erase` builds it. -/
def sector_erase_descriptor (sector nb : Nat) : FLASH_EraseInitTypeDef :=
  { TypeErase := .FLASH_TYPEERASE_SECTORS
    Banks := FLASH_BANK_1
    Sector := some sector
    NbSectors := some nb
    VoltageRange := FLASH_VOLTAGE_RANGE_3 }

/-- The byte-program calls of a write of `n` bytes of `bytes`, from index `i` on,
to the flash address `a + i` and the following ones (32-bit addresses). -/
def program_calls (bytes : List Nat) (a i n : Nat) : List HwCall :=
  (List.range' i n).map fun j => .HAL_FLASH_Program ((a + j) % 2 ^ 32) (bytes.getD j 0)

/-- The command record the scenario frame of the specification describes. -/
def scenario_record : BL_Message_Structure_t :=
  { command_number := { b0 := 0x01, b1 := 0x00 }
    target := 0x02
    address := { b0 := 0x10, b1 := 0x00, b2 := 0x00, b3 := 0x08 }
    command_type := 0x02
    data_type := 0x06
    data_length := 0
    data := { b0 := 0xAA, b1 := 0xBB, b2 := 0xCC, b3 := 0xDD } }

/-- The world at reset with the command record `m`. -/
def world_of (m : BL_Message_Structure_t) : World :=
  { world0 with m_message := m }

/-- The members of the record that hold one byte each do: the bytes of the
unions, and the enum members, which the core only ever sets from one byte. -/
def BL_Message_Structure_t.is_bytes (m : BL_Message_Structure_t) : Prop :=
  m.command_number.b0 < 256 ∧ m.command_number.b1 < 256 ∧ m.target < 256 ∧
  m.address.b0 < 256 ∧ m.address.b1 < 256 ∧ m.address.b2 < 256 ∧ m.address.b3 < 256 ∧
  m.command_type < 256 ∧ m.data_type < 256 ∧
  m.data.b0 < 256 ∧ m.data.b1 < 256 ∧ m.data.b2 < 256 ∧ m.data.b3 < 256

/-- The world with other values in the members of the command record that a
FlashErase command does not read: sequence number, data kind, address bytes 1 to
3 and payload bytes 1 to 3. -/
def World.with_unused_by_erase (w : World) (cn : models_u16_u)
    (dt a1 a2 a3 d1 d2 d3 : Nat) : World :=
  { w with m_message := { w.m_message with
      command_number := cn
      data_type := dt
      address := { w.m_message.address with b1 := a1, b2 := a2, b3 := a3 }
      data := { w.m_message.data with b1 := d1, b2 := d2, b3 := d3 } } }

/-- The world with another data kind in the command record. -/
def World.with_data_type (w : World) (dt : Nat) : World :=
  { w with m_message := { w.m_message with data_type := dt } }

/-- The value `HAL_TIMEOUT` of `HAL_StatusTypeDef`. -/
def HAL_TIMEOUT : Nat := 3

/-- The world at reset with the error counter at the largest `uint32_t` value. -/
def world_counter_max : World :=
  { world0 with m_device := { world0.m_device with error_counter := 0xFFFFFFFF } }

/-- The world at reset with the scenario record and a flash that reports
`HAL_TIMEOUT` to every call. -/
def world_flash_timeout : World :=
  { world_of scenario_record with hal := fun _ => HAL_TIMEOUT }

/-- The world at reset with the status `COMM_OFFLINE`, as a frame that arrives
after a silence leaves it: `parse_message` clears the counter, not the status. -/
def world_offline : World :=
  { world0 with m_device := { world0.m_device with
      comm_state := { status := .COMM_OFFLINE, last_rx_time := 0 } } }

/-- The world `parse_message` leaves in WAIT_FOR_MESSAGE when it records the code
`e` and the command record `m`. -/
def parsed_world (w : World) (e : BL_Error_Handler_e) (m : BL_Message_Structure_t) : World :=
  { w with
    m_device :=
      { comm_state := { status := w.m_device.comm_state.status, last_rx_time := 0 }
        message_state := .MESSAGE_OK
        last_error := e
        error_counter := w.m_device.error_counter }
    m_message := m }

/-! ## Lemmas on the frame checks of `parse_message` -/

theorem rd_zero (buf : List Nat) : rd buf 0 = buf.head? := by
  cases buf <;> simp [rd]

theorem rd_last (buf : List Nat) : rd buf ((buf.length : Int) - 1) = buf.getLast? := by
  rcases buf with _ | ⟨x, xs⟩
  · simp [rd]
  · have h : ((((x :: xs).length : Nat) : Int) - 1) = ((xs.length : Nat) : Int) := by
      simp
    rw [h, List.getLast?_eq_getElem?]
    simp [rd]

theorem length_fifteen (buf : List Nat) (h : buf.length = 15) :
    ∃ x0 x1 x2 x3 x4 x5 x6 x7 x8 x9 x10 x11 x12 x13 x14,
      buf = [x0, x1, x2, x3, x4, x5, x6, x7, x8, x9, x10, x11, x12, x13, x14] := by
  rcases buf with _ | ⟨x0, _ | ⟨x1, _ | ⟨x2, _ | ⟨x3, _ | ⟨x4, _ | ⟨x5, _ | ⟨x6, _ | ⟨x7,
    _ | ⟨x8, _ | ⟨x9, _ | ⟨x10, _ | ⟨x11, _ | ⟨x12, _ | ⟨x13, _ | ⟨x14, _ | ⟨x15, xs⟩⟩⟩⟩⟩⟩⟩⟩⟩⟩⟩⟩⟩⟩⟩⟩ <;>
    simp at h
  exact ⟨x0, x1, x2, x3, x4, x5, x6, x7, x8, x9, x10, x11, x12, x13, x14, rfl⟩

/-- The record `pre_process_message` leaves for a buffer of fifteen bytes. -/
theorem pre_process_message_fifteen
    (x0 x1 x2 x3 x4 x5 x6 x7 x8 x9 x10 x11 x12 x13 x14 : Nat) (w : World) :
    pre_process_message [x0, x1, x2, x3, x4, x5, x6, x7, x8, x9, x10, x11, x12, x13, x14] w
      = some { w with m_message :=
          { w.m_message with
            command_number := { b0 := x1, b1 := x2 }
            target := x3
            address := { b0 := x4, b1 := x5, b2 := x6, b3 := x7 }
            command_type := x8
            data_type := x9
            data := { b0 := x10, b1 := x11, b2 := x12, b3 := x13 } } } := by
  simp [pre_process_message, rd]

/-- The four outcomes of `parse_message` on a non-empty buffer, in the order the
code tests them. -/
theorem parse_message_cases (buf : List Nat) (f l : Nat) (w : World)
    (hs : w.m_device.message_state = .WAIT_FOR_MESSAGE)
    (hf : buf.head? = some f) (hl : buf.getLast? = some l) :
    parse_message buf buf.length w =
      if f ≠ BOOTLOADER_RESP_START_BYTE ∧ l = BOOTLOADER_RESP_END_BYTE then
        some (((w.set_last_rx_time 0).set_last_error .BL_ERR_INVALID_START).set_message_state
          .MESSAGE_OK)
      else if f = BOOTLOADER_RESP_START_BYTE ∧ l ≠ BOOTLOADER_RESP_END_BYTE then
        some (((w.set_last_rx_time 0).set_last_error .BL_ERR_INVALID_END).set_message_state
          .MESSAGE_OK)
      else if buf.length ≠ MESSAGE_LENGTH then
        some (((w.set_last_rx_time 0).set_last_error .BL_ERR_INVALID_FORMAT).set_message_state
          .MESSAGE_OK)
      else if f = BOOTLOADER_RESP_START_BYTE ∧ l = BOOTLOADER_RESP_END_BYTE then
        (pre_process_message buf (w.set_last_rx_time 0)).map fun w =>
          (w.set_last_error .BL_OK).set_message_state .MESSAGE_OK
      else
        some (((w.set_last_rx_time 0).set_last_error .BL_ERR_INVALID_FORMAT).set_message_state
          .MESSAGE_OK) := by
  unfold parse_message
  rw [if_pos hs, rd_zero, rd_last, hf, hl]
  by_cases h1 : f = BOOTLOADER_RESP_START_BYTE <;>
    by_cases h2 : l = BOOTLOADER_RESP_END_BYTE <;>
    by_cases h3 : buf.length = MESSAGE_LENGTH <;>
    simp [sc_and, h1, h2, h3]

/-- Every non-empty buffer has a first and a last byte. -/
theorem head_last_of_length (buf : List Nat) (hlen : 1 ≤ buf.length) :
    ∃ f l, buf.head? = some f ∧ buf.getLast? = some l := by
  rcases buf with _ | ⟨x, xs⟩
  · simp at hlen
  · exact ⟨x, (x :: xs).getLast (by simp), by simp, List.getLast?_eq_getLast _ _⟩

/-- A 15-byte frame with both markers is accepted, whatever its other bytes are. -/
theorem parse_message_accepted
    (x1 x2 x3 x4 x5 x6 x7 x8 x9 x10 x11 x12 x13 : Nat) (w : World)
    (hs : w.m_device.message_state = .WAIT_FOR_MESSAGE) :
    parse_message [BOOTLOADER_RESP_START_BYTE, x1, x2, x3, x4, x5, x6, x7, x8, x9, x10, x11,
        x12, x13, BOOTLOADER_RESP_END_BYTE] 15 w
      = some (accepted_world x1 x2 x3 x4 x5 x6 x7 x8 x9 x10 x11 x12 x13 w) := by
  have h := parse_message_cases [BOOTLOADER_RESP_START_BYTE, x1, x2, x3, x4, x5, x6, x7, x8,
    x9, x10, x11, x12, x13, BOOTLOADER_RESP_END_BYTE] BOOTLOADER_RESP_START_BYTE
    BOOTLOADER_RESP_END_BYTE w hs rfl rfl
  rw [pre_process_message_fifteen] at h
  simpa [MESSAGE_LENGTH, accepted_world, World.set_last_error, World.set_message_state,
    World.set_last_rx_time] using h

/-- A 15-byte frame that is accepted carries both markers. -/
theorem markers_of_accepted
    (x0 x1 x2 x3 x4 x5 x6 x7 x8 x9 x10 x11 x12 x13 x14 : Nat) (w : World)
    (hs : w.m_device.message_state = .WAIT_FOR_MESSAGE)
    (hacc : (parse_message [x0, x1, x2, x3, x4, x5, x6, x7, x8, x9, x10, x11, x12, x13, x14]
        15 w).map (fun w => w.m_device.last_error) = some .BL_OK) :
    x0 = BOOTLOADER_RESP_START_BYTE ∧ x14 = BOOTLOADER_RESP_END_BYTE := by
  have h := parse_message_cases [x0, x1, x2, x3, x4, x5, x6, x7, x8, x9, x10, x11, x12, x13,
    x14] x0 x14 w hs rfl rfl
  rw [pre_process_message_fifteen] at h
  have h15 : [x0, x1, x2, x3, x4, x5, x6, x7, x8, x9, x10, x11, x12, x13, x14].length = 15 := rfl
  rw [h15] at h
  rw [h] at hacc
  by_cases h1 : x0 = BOOTLOADER_RESP_START_BYTE <;>
    by_cases h2 : x14 = BOOTLOADER_RESP_END_BYTE <;>
    simp [h1, h2, MESSAGE_LENGTH, World.set_last_error, World.set_message_state] at hacc ⊢

theorem program_addresses_append (xs ys : List HwCall) :
    program_addresses (xs ++ ys) = program_addresses xs ++ program_addresses ys := by
  induction xs with
  | nil => rfl
  | cons c cs ih => cases c <;> simp [program_addresses, ih]

theorem erase_requests_append (xs ys : List HwCall) :
    erase_requests (xs ++ ys) = erase_requests xs ++ erase_requests ys := by
  induction xs with
  | nil => rfl
  | cons c cs ih => cases c <;> simp [erase_requests, ih]

theorem transmitted_append (xs ys : List HwCall) :
    transmitted (xs ++ ys) = transmitted xs ++ transmitted ys := by
  induction xs with
  | nil => rfl
  | cons c cs ih => cases c <;> simp [transmitted, ih]

/-- The call `mem_write(m_message.data.b, address, 4)` spelled out. -/
theorem mem_write_four (d0 d1 d2 d3 a : Nat) (w : World) :
    mem_write [d0, d1, d2, d3] a 4 w
      = some (w.hal 3 % 256,
          { w with
            calls := w.calls ++
              [ .HAL_GPIO_WritePin .LED2 true, .HAL_FLASH_Unlock,
                .HAL_FLASH_Program ((a + 0) % 2 ^ 32) d0,
                .HAL_FLASH_Program ((a + 1) % 2 ^ 32) d1,
                .HAL_FLASH_Program ((a + 2) % 2 ^ 32) d2,
                .HAL_FLASH_Program ((a + 3) % 2 ^ 32) d3,
                .HAL_FLASH_Lock, .HAL_GPIO_WritePin .LED2 false ]
            hal := fun n => w.hal (n + 4) }) := by
  simp [mem_write, mem_write_loop, rd, World.call, World.next_status]

/-! ## Frame validation (claims C1, C3 to C8) -/

/-- C1, the code at the scenario frame: with the device in WAIT_FOR_MESSAGE,
parse_message on the 15-byte buffer that starts with the host start byte 0xA2
records BL_ERR_INVALID_START, not BL_OK, and the command record keeps the
values it had (here all zero) instead of the decoded fields. -/
theorem C1_scenario_frame_rejected :
    world0.m_device.message_state = .WAIT_FOR_MESSAGE ∧
    scenario_frame.head? = some HOST_CMD_START_BYTE ∧
    (parse_message scenario_frame 15 world0).map (fun w => (w.m_device.last_error, w.m_message))
      = some (.BL_ERR_INVALID_START, world0.m_message) := by
  decide

/-- C3, the code at an accepted frame: the 15-byte frame that starts with 0xA3 is
accepted (last_error = BL_OK) although its first byte is not HOST_CMD_START_BYTE,
the same frame with the host start byte 0xA2 is not accepted, and 0xA3 is the
byte response_message and handle_error put at offset 0 of the frames they send:
the accepted start marker is the device marker, not a distinct host marker. -/
theorem C3_accepted_start_is_device_marker :
    (parse_message device_start_frame 15 world0).map (fun w => w.m_device.last_error)
      = some .BL_OK ∧
    device_start_frame.head? ≠ some HOST_CMD_START_BYTE ∧
    (parse_message (HOST_CMD_START_BYTE :: device_start_frame.tail) 15 world0).map
      (fun w => w.m_device.last_error) ≠ some .BL_OK ∧
    transmitted (response_message world0).calls
      = [BOOTLOADER_RESP_START_BYTE :: (List.replicate 7 0 ++ [3] ++ List.replicate 5 0 ++ [0x25])] ∧
    device_start_frame.head? = some BOOTLOADER_RESP_START_BYTE ∧
    ((transmitted (handle_error .BL_ERR_INVALID_START world0).calls).map List.head?)
      = [some BOOTLOADER_RESP_START_BYTE] := by
  decide

/-- C4: for every buffer of length at least 1, with the device in
WAIT_FOR_MESSAGE, if the first byte is not the start marker parse_message tests
for (0xA3) and the last byte is the end marker 0x25, parse_message returns with
last_error = BL_ERR_INVALID_START. -/
theorem C4_invalid_start (buf : List Nat) (w : World)
    (hs : w.m_device.message_state = .WAIT_FOR_MESSAGE)
    (hlen : 1 ≤ buf.length)
    (hfirst : buf.head? ≠ some BOOTLOADER_RESP_START_BYTE)
    (hlast : buf.getLast? = some BOOTLOADER_RESP_END_BYTE) :
    ∃ w', parse_message buf buf.length w = some w' ∧
      w'.m_device.last_error = .BL_ERR_INVALID_START := by
  obtain ⟨f, l, hf, hl⟩ := head_last_of_length buf hlen
  rw [parse_message_cases buf f l w hs hf hl]
  rw [hf] at hfirst
  rw [hl] at hlast
  have h1 : f ≠ BOOTLOADER_RESP_START_BYTE := fun h => hfirst (by rw [h])
  have h2 : l = BOOTLOADER_RESP_END_BYTE := by simpa using hlast
  rw [if_pos ⟨h1, h2⟩]
  exact ⟨_, rfl, rfl⟩

theorem C4_invalid_start_witness :
    world0.m_device.message_state = .WAIT_FOR_MESSAGE ∧
    ∃ w', parse_message [0x00, 0x25] 2 world0 = some w' ∧
      w'.m_device.last_error = .BL_ERR_INVALID_START :=
  ⟨rfl, C4_invalid_start [0x00, 0x25] world0 rfl (by decide) (by decide) (by decide)⟩

/-- C5: for every buffer of length at least 1, with the device in
WAIT_FOR_MESSAGE, if the first byte is the start marker parse_message tests for
(0xA3) and the last byte is not the end marker 0x25, parse_message returns with
last_error = BL_ERR_INVALID_END. -/
theorem C5_invalid_end (buf : List Nat) (w : World)
    (hs : w.m_device.message_state = .WAIT_FOR_MESSAGE)
    (hlen : 1 ≤ buf.length)
    (hfirst : buf.head? = some BOOTLOADER_RESP_START_BYTE)
    (hlast : buf.getLast? ≠ some BOOTLOADER_RESP_END_BYTE) :
    ∃ w', parse_message buf buf.length w = some w' ∧
      w'.m_device.last_error = .BL_ERR_INVALID_END := by
  obtain ⟨f, l, hf, hl⟩ := head_last_of_length buf hlen
  rw [parse_message_cases buf f l w hs hf hl]
  rw [hf] at hfirst
  rw [hl] at hlast
  have h1 : f = BOOTLOADER_RESP_START_BYTE := by simpa using hfirst
  have h2 : l ≠ BOOTLOADER_RESP_END_BYTE := fun h => hlast (by rw [h])
  rw [if_neg (fun h => h.1 h1), if_pos ⟨h1, h2⟩]
  exact ⟨_, rfl, rfl⟩

theorem C5_invalid_end_witness :
    world0.m_device.message_state = .WAIT_FOR_MESSAGE ∧
    ∃ w', parse_message [0xA3, 0x00] 2 world0 = some w' ∧
      w'.m_device.last_error = .BL_ERR_INVALID_END :=
  ⟨rfl, C5_invalid_end [0xA3, 0x00] world0 rfl (by decide) (by decide) (by decide)⟩

/-- C6 as stated fails: the 2-byte buffer [0x00, 0x25] has a length other than
15, and parse_message (device in WAIT_FOR_MESSAGE) records BL_ERR_INVALID_START
for it, not BL_ERR_INVALID_FORMAT. -/
theorem C6_counterexample :
    world0.m_device.message_state = .WAIT_FOR_MESSAGE ∧
    [0x00, 0x25].length ≠ 15 ∧
    (parse_message [0x00, 0x25] 2 world0).map (fun w => w.m_device.last_error)
      = some .BL_ERR_INVALID_START ∧
    (parse_message [0x00, 0x25] 2 world0).map (fun w => w.m_device.last_error)
      ≠ some .BL_ERR_INVALID_FORMAT := by
  decide

/-- C6 amended: for every buffer whose length is at least 1 and not 15, with the
device in WAIT_FOR_MESSAGE, parse_message records BL_ERR_INVALID_FORMAT when the
first and last byte both match, or both fail to match, the markers it tests for;
when only the end marker matches it records BL_ERR_INVALID_START, and when only
the start marker matches it records BL_ERR_INVALID_END: the marker tests come
before the length test. -/
theorem C6_length_amended (buf : List Nat) (w : World)
    (hs : w.m_device.message_state = .WAIT_FOR_MESSAGE)
    (hlen : 1 ≤ buf.length) (h15 : buf.length ≠ 15) :
    ∃ w', parse_message buf buf.length w = some w' ∧
      ((buf.head? = some BOOTLOADER_RESP_START_BYTE ↔
          buf.getLast? = some BOOTLOADER_RESP_END_BYTE) →
        w'.m_device.last_error = .BL_ERR_INVALID_FORMAT) ∧
      (buf.head? ≠ some BOOTLOADER_RESP_START_BYTE →
          buf.getLast? = some BOOTLOADER_RESP_END_BYTE →
        w'.m_device.last_error = .BL_ERR_INVALID_START) ∧
      (buf.head? = some BOOTLOADER_RESP_START_BYTE →
          buf.getLast? ≠ some BOOTLOADER_RESP_END_BYTE →
        w'.m_device.last_error = .BL_ERR_INVALID_END) := by
  obtain ⟨f, l, hf, hl⟩ := head_last_of_length buf hlen
  rw [parse_message_cases buf f l w hs hf hl, hf, hl]
  have h15 : buf.length ≠ MESSAGE_LENGTH := h15
  by_cases h1 : f = BOOTLOADER_RESP_START_BYTE <;>
    by_cases h2 : l = BOOTLOADER_RESP_END_BYTE <;>
    simp [h1, h2, h15, World.set_last_error, World.set_message_state]

theorem C6_length_amended_witness :
    world0.m_device.message_state = .WAIT_FOR_MESSAGE ∧
    ∃ w', parse_message [0xA3, 0x00, 0x25] 3 world0 = some w' ∧
      ((([0xA3, 0x00, 0x25] : List Nat).head? = some BOOTLOADER_RESP_START_BYTE ↔
          ([0xA3, 0x00, 0x25] : List Nat).getLast? = some BOOTLOADER_RESP_END_BYTE) →
        w'.m_device.last_error = .BL_ERR_INVALID_FORMAT) ∧
      (([0xA3, 0x00, 0x25] : List Nat).head? ≠ some BOOTLOADER_RESP_START_BYTE →
          ([0xA3, 0x00, 0x25] : List Nat).getLast? = some BOOTLOADER_RESP_END_BYTE →
        w'.m_device.last_error = .BL_ERR_INVALID_START) ∧
      (([0xA3, 0x00, 0x25] : List Nat).head? = some BOOTLOADER_RESP_START_BYTE →
          ([0xA3, 0x00, 0x25] : List Nat).getLast? ≠ some BOOTLOADER_RESP_END_BYTE →
        w'.m_device.last_error = .BL_ERR_INVALID_END) :=
  ⟨rfl, C6_length_amended [0xA3, 0x00, 0x25] world0 rfl (by decide) (by decide)⟩

/-- C7: for every buffer of length at least 1, with the device in
WAIT_FOR_MESSAGE, parse_message returns, and it ends with last_error = BL_OK if
and only if the first byte is the start marker it tests for (0xA3), the last
byte is the end marker 0x25 and the length is 15; whenever neither marker
matches, it ends with BL_ERR_INVALID_FORMAT. -/
theorem C7_accept_iff (buf : List Nat) (w : World)
    (hs : w.m_device.message_state = .WAIT_FOR_MESSAGE)
    (hlen : 1 ≤ buf.length) :
    ∃ w', parse_message buf buf.length w = some w' ∧
      (w'.m_device.last_error = .BL_OK ↔
        (buf.head? = some BOOTLOADER_RESP_START_BYTE ∧
          buf.getLast? = some BOOTLOADER_RESP_END_BYTE ∧ buf.length = 15)) ∧
      (buf.head? ≠ some BOOTLOADER_RESP_START_BYTE →
          buf.getLast? ≠ some BOOTLOADER_RESP_END_BYTE →
        w'.m_device.last_error = .BL_ERR_INVALID_FORMAT) := by
  obtain ⟨f, l, hf, hl⟩ := head_last_of_length buf hlen
  rw [parse_message_cases buf f l w hs hf hl, hf, hl]
  by_cases h3 : buf.length = 15
  · obtain ⟨x0, x1, x2, x3, x4, x5, x6, x7, x8, x9, x10, x11, x12, x13, x14, rfl⟩ :=
      length_fifteen buf h3
    rw [pre_process_message_fifteen]
    by_cases h1 : f = BOOTLOADER_RESP_START_BYTE <;>
      by_cases h2 : l = BOOTLOADER_RESP_END_BYTE <;>
      simp [h1, h2, MESSAGE_LENGTH, World.set_last_error, World.set_message_state]
  · have h3m : buf.length ≠ MESSAGE_LENGTH := h3
    by_cases h1 : f = BOOTLOADER_RESP_START_BYTE <;>
      by_cases h2 : l = BOOTLOADER_RESP_END_BYTE <;>
      simp [h1, h2, h3, h3m, World.set_last_error, World.set_message_state]

theorem C7_accept_iff_witness :
    world0.m_device.message_state = .WAIT_FOR_MESSAGE ∧
    ∃ w', parse_message device_start_frame device_start_frame.length world0 = some w' ∧
      (w'.m_device.last_error = .BL_OK ↔
        (device_start_frame.head? = some BOOTLOADER_RESP_START_BYTE ∧
          device_start_frame.getLast? = some BOOTLOADER_RESP_END_BYTE ∧
          device_start_frame.length = 15)) ∧
      (device_start_frame.head? ≠ some BOOTLOADER_RESP_START_BYTE →
          device_start_frame.getLast? ≠ some BOOTLOADER_RESP_END_BYTE →
        w'.m_device.last_error = .BL_ERR_INVALID_FORMAT) :=
  ⟨rfl, C7_accept_iff device_start_frame world0 rfl (by decide)⟩

/-- C8: for every accepted 15-byte frame b (device in WAIT_FOR_MESSAGE),
parse_message leaves command_number = b[1] + 256*b[2], target = b[3],
address = b[4] + 2^8*b[5] + 2^16*b[6] + 2^24*b[7], command_type = b[8],
data_type = b[9] and payload bytes data.b[i] = b[10+i]; and with any values
whatever at offsets 3, 8 and 9 the frame is still accepted and those values are
stored unchanged. -/
theorem C8_decode_fields
    (b0 b1 b2 b3 b4 b5 b6 b7 b8 b9 b10 b11 b12 b13 b14 : Nat) (w : World)
    (hs : w.m_device.message_state = .WAIT_FOR_MESSAGE)
    (hacc : (parse_message [b0, b1, b2, b3, b4, b5, b6, b7, b8, b9, b10, b11, b12, b13, b14]
        15 w).map (fun w => w.m_device.last_error) = some .BL_OK) :
    (∃ w', parse_message [b0, b1, b2, b3, b4, b5, b6, b7, b8, b9, b10, b11, b12, b13, b14]
        15 w = some w' ∧
      w'.m_message.command_number.u16 = b1 + 256 * b2 ∧
      w'.m_message.target = b3 ∧
      w'.m_message.address.u32 = b4 + 2 ^ 8 * b5 + 2 ^ 16 * b6 + 2 ^ 24 * b7 ∧
      w'.m_message.command_type = b8 ∧
      w'.m_message.data_type = b9 ∧
      w'.m_message.data.b = [b10, b11, b12, b13]) ∧
    (∀ t ct dt : Nat,
      ∃ w', parse_message [b0, b1, b2, t, b4, b5, b6, b7, ct, dt, b10, b11, b12, b13, b14]
          15 w = some w' ∧
        w'.m_device.last_error = .BL_OK ∧
        w'.m_message.target = t ∧
        w'.m_message.command_type = ct ∧
        w'.m_message.data_type = dt) := by
  obtain ⟨h0, h14⟩ := markers_of_accepted b0 b1 b2 b3 b4 b5 b6 b7 b8 b9 b10 b11 b12 b13 b14
    w hs hacc
  subst h0 h14
  refine ⟨⟨_, parse_message_accepted b1 b2 b3 b4 b5 b6 b7 b8 b9 b10 b11 b12 b13 w hs,
    rfl, rfl, rfl, rfl, rfl, rfl⟩, ?_⟩
  intro t ct dt
  exact ⟨_, parse_message_accepted b1 b2 t b4 b5 b6 b7 ct dt b10 b11 b12 b13 w hs,
    rfl, rfl, rfl, rfl⟩

theorem C8_decode_fields_witness :
    world0.m_device.message_state = .WAIT_FOR_MESSAGE ∧
    ((∃ w', parse_message [0xA3, 0x34, 0x12, 0x77, 0x10, 0x00, 0x00, 0x08, 0x99, 0xEE, 0xAA,
        0xBB, 0xCC, 0xDD, 0x25] 15 world0 = some w' ∧
      w'.m_message.command_number.u16 = 0x34 + 256 * 0x12 ∧
      w'.m_message.target = 0x77 ∧
      w'.m_message.address.u32 = 0x10 + 2 ^ 8 * 0x00 + 2 ^ 16 * 0x00 + 2 ^ 24 * 0x08 ∧
      w'.m_message.command_type = 0x99 ∧
      w'.m_message.data_type = 0xEE ∧
      w'.m_message.data.b = [0xAA, 0xBB, 0xCC, 0xDD]) ∧
    (∀ t ct dt : Nat,
      ∃ w', parse_message [0xA3, 0x34, 0x12, t, 0x10, 0x00, 0x00, 0x08, ct, dt, 0xAA, 0xBB,
          0xCC, 0xDD, 0x25] 15 world0 = some w' ∧
        w'.m_device.last_error = .BL_OK ∧
        w'.m_message.target = t ∧
        w'.m_message.command_type = ct ∧
        w'.m_message.data_type = dt)) :=
  ⟨rfl, C8_decode_fields 0xA3 0x34 0x12 0x77 0x10 0x00 0x00 0x08 0x99 0xEE 0xAA 0xBB 0xCC 0xDD
    0x25 world0 rfl (by decide)⟩

/-! ## Round trip through the response encoder (claim C9) -/

/-- C9: for every 15-byte frame b of bytes that parse_message accepts (device in
WAIT_FOR_MESSAGE), response_message called right after makes exactly one
transmit call, of the 15 bytes
[0xA3, b[1], ..., b[7], 0x03, b[9], ..., b[13], 0x25]: sequence number, target,
address, data kind and payload are those of b, and the command kind is 0x03
(Response). -/
theorem C9_round_trip
    (b0 b1 b2 b3 b4 b5 b6 b7 b8 b9 b10 b11 b12 b13 b14 : Nat) (w : World)
    (hs : w.m_device.message_state = .WAIT_FOR_MESSAGE)
    (hb : ∀ x ∈ [b0, b1, b2, b3, b4, b5, b6, b7, b8, b9, b10, b11, b12, b13, b14], x < 256)
    (hacc : (parse_message [b0, b1, b2, b3, b4, b5, b6, b7, b8, b9, b10, b11, b12, b13, b14]
        15 w).map (fun w => w.m_device.last_error) = some .BL_OK) :
    ∃ w', parse_message [b0, b1, b2, b3, b4, b5, b6, b7, b8, b9, b10, b11, b12, b13, b14]
        15 w = some w' ∧
      (response_message w').calls = w.calls ++
        [.CDC_Transmit_FS
          [0xA3, b1, b2, b3, b4, b5, b6, b7, 0x03, b9, b10, b11, b12, b13, 0x25] 15] := by
  obtain ⟨h0, h14⟩ := markers_of_accepted b0 b1 b2 b3 b4 b5 b6 b7 b8 b9 b10 b11 b12 b13 b14
    w hs hacc
  subst h0 h14
  refine ⟨_, parse_message_accepted b1 b2 b3 b4 b5 b6 b7 b8 b9 b10 b11 b12 b13 w hs, ?_⟩
  have h3 : b3 % 256 = b3 := Nat.mod_eq_of_lt (hb b3 (by simp))
  have h9 : b9 % 256 = b9 := Nat.mod_eq_of_lt (hb b9 (by simp))
  simp [response_message, accepted_world, World.call, h3, h9, BOOTLOADER_RESP_START_BYTE,
    BOOTLOADER_RESP_END_BYTE, CMD_TYPE_RESPONSE]

theorem C9_round_trip_witness :
    world0.m_device.message_state = .WAIT_FOR_MESSAGE ∧
    ∃ w', parse_message [0xA3, 0x01, 0x00, 0x02, 0x10, 0x00, 0x00, 0x08, 0x02, 0x06, 0xAA,
        0xBB, 0xCC, 0xDD, 0x25] 15 world0 = some w' ∧
      (response_message w').calls = world0.calls ++
        [.CDC_Transmit_FS
          [0xA3, 0x01, 0x00, 0x02, 0x10, 0x00, 0x00, 0x08, 0x03, 0x06, 0xAA, 0xBB, 0xCC, 0xDD,
            0x25] 15] :=
  ⟨rfl, C9_round_trip 0xA3 0x01 0x00 0x02 0x10 0x00 0x00 0x08 0x02 0x06 0xAA 0xBB 0xCC 0xDD
    0x25 world0 rfl (by decide) (by decide)⟩

/-! ## Flash programming and erase (claims C2, C10) -/

/-- C2 as stated fails: the well-formed frame with target MemWrite, command kind
Write and address field 0x20000000 is accepted, 0x20000000 is outside the flash
geometry, and process_data on the resulting record issues four program-byte
calls, at 0x20000000 to 0x20000003. -/
theorem C2_counterexample :
    world0.m_device.message_state = .WAIT_FOR_MESSAGE ∧
    (parse_message sram_write_frame 15 world0).map
        (fun w => (w.m_device.last_error, w.m_message.command_type, w.m_message.target,
          w.m_message.address.u32))
      = some (.BL_OK, CMD_TYPE_WRITE, TARGET_MEM_WRITE, 0x20000000) ∧
    ¬ in_flash 0x20000000 ∧
    ((parse_message sram_write_frame 15 world0).bind fun w => (process_data w).world).map
        (fun w => program_addresses w.calls)
      = some [0x20000000, 0x20000001, 0x20000002, 0x20000003] := by
  decide

/-- C2 amended: for every command record produced by an accepted 15-byte frame
with target MemWrite and command kind Write, process_data returns after issuing
exactly four program-byte calls, at (address + i) mod 2^32 for i = 0..3, with no
check of the address; the four addresses lie inside the flash geometry whenever
address and address + 3 do. -/
theorem C2_mem_write_addresses
    (b0 b1 b2 b3 b4 b5 b6 b7 b8 b9 b10 b11 b12 b13 b14 a : Nat) (w : World)
    (hs : w.m_device.message_state = .WAIT_FOR_MESSAGE)
    (hacc : (parse_message [b0, b1, b2, b3, b4, b5, b6, b7, b8, b9, b10, b11, b12, b13, b14]
        15 w).map (fun w => w.m_device.last_error) = some .BL_OK)
    (ht : b3 = TARGET_MEM_WRITE) (hct : b8 = CMD_TYPE_WRITE)
    (ha : a = b4 + 2 ^ 8 * b5 + 2 ^ 16 * b6 + 2 ^ 24 * b7) :
    ∃ w1 r w2,
      parse_message [b0, b1, b2, b3, b4, b5, b6, b7, b8, b9, b10, b11, b12, b13, b14] 15 w
        = some w1 ∧
      process_data w1 = .returned r w2 ∧
      program_addresses w2.calls = program_addresses w.calls ++
        [(a + 0) % 2 ^ 32, (a + 1) % 2 ^ 32, (a + 2) % 2 ^ 32, (a + 3) % 2 ^ 32] ∧
      (in_flash a → in_flash (a + 3) →
        ∀ x ∈ [(a + 0) % 2 ^ 32, (a + 1) % 2 ^ 32, (a + 2) % 2 ^ 32, (a + 3) % 2 ^ 32],
          in_flash x) := by
  obtain ⟨h0, h14⟩ := markers_of_accepted b0 b1 b2 b3 b4 b5 b6 b7 b8 b9 b10 b11 b12 b13 b14
    w hs hacc
  subst h0 h14 ht hct
  have hpd : process_data (accepted_world b1 b2 TARGET_MEM_WRITE b4 b5 b6 b7 CMD_TYPE_WRITE b9
      b10 b11 b12 b13 w)
      = match mem_write [b10, b11, b12, b13] a 4
          (accepted_world b1 b2 TARGET_MEM_WRITE b4 b5 b6 b7 CMD_TYPE_WRITE b9 b10 b11 b12
            b13 w) with
        | some r => .returned r.1 r.2
        | none => .undefined := by
    subst ha
    simp [process_data, write_process_data, accepted_world, CMD_TYPE_WRITE, CMD_TYPE_READ,
      TARGET_MEM_WRITE, TARGET_FLASH_ERASE, models_u32_u.b, models_u32_u.u32]
  rw [mem_write_four] at hpd
  refine ⟨_, _, _, parse_message_accepted b1 b2 TARGET_MEM_WRITE b4 b5 b6 b7 CMD_TYPE_WRITE b9
    b10 b11 b12 b13 w hs, hpd, ?_, ?_⟩
  · simp [program_addresses_append, program_addresses, accepted_world]
  · intro h1 h2 x hx
    simp only [in_flash, F4_SECTOR_0, F4_SECTOR_11, F4_SECTOR_11_SIZE] at h1 h2 ⊢
    simp only [List.mem_cons, List.mem_singleton, List.not_mem_nil, or_false] at hx
    omega

theorem C2_mem_write_addresses_witness :
    world0.m_device.message_state = .WAIT_FOR_MESSAGE ∧
    ∃ w1 r w2,
      parse_message [0xA3, 0x01, 0x00, 0x02, 0x10, 0x00, 0x00, 0x08, 0x02, 0x06, 0xAA, 0xBB,
        0xCC, 0xDD, 0x25] 15 world0 = some w1 ∧
      process_data w1 = .returned r w2 ∧
      program_addresses w2.calls = program_addresses world0.calls ++
        [(0x08000010 + 0) % 2 ^ 32, (0x08000010 + 1) % 2 ^ 32, (0x08000010 + 2) % 2 ^ 32,
          (0x08000010 + 3) % 2 ^ 32] ∧
      (in_flash 0x08000010 → in_flash (0x08000010 + 3) →
        ∀ x ∈ [(0x08000010 + 0) % 2 ^ 32, (0x08000010 + 1) % 2 ^ 32,
            (0x08000010 + 2) % 2 ^ 32, (0x08000010 + 3) % 2 ^ 32],
          in_flash x) :=
  ⟨rfl, C2_mem_write_addresses 0xA3 0x01 0x00 0x02 0x10 0x00 0x00 0x08 0x02 0x06 0xAA 0xBB 0xCC
    0xDD 0x25 0x08000010 world0 rfl (by decide) rfl rfl (by decide)⟩

/-- C10 as stated fails: with start sector 0xFF and count 12, flash_erase returns
INVALID_SECTOR after switching the LED on and makes no call of the erase
primitive, so no mass erase is performed. -/
theorem C10_counterexample :
    (flash_erase 0xff 12 world0).1 = INVALID_SECTOR ∧
    (flash_erase 0xff 12 world0).2.calls = [.HAL_GPIO_WritePin .LED2 true] ∧
    erase_requests (flash_erase 0xff 12 world0).2.calls = [] := by
  decide

/-- C10 amended: for every count up to TOTAL_SECTORS (11) and start sector 0xFF,
flash_erase performs a mass erase, whatever the value of count in that range:
it unlocks the flash, calls the erase primitive once with erase type MASSERASE
and no sector or sector count, locks the flash and returns the status of the
erase. -/
theorem C10_mass_erase (count : Nat) (w : World) (hc : count ≤ TOTAL_SECTORS) :
    (flash_erase 0xff count w).2.calls = w.calls ++
      [ .HAL_GPIO_WritePin .LED2 true, .HAL_FLASH_Unlock,
        .HAL_FLASHEx_Erase mass_erase_descriptor,
        .HAL_FLASH_Lock, .HAL_GPIO_WritePin .LED2 false ] ∧
    erase_requests (flash_erase 0xff count w).2.calls
      = erase_requests w.calls ++ [mass_erase_descriptor] ∧
    mass_erase_descriptor.TypeErase = .FLASH_TYPEERASE_MASSERASE ∧
    (flash_erase 0xff count w).1 = w.hal 0 % 256 := by
  have hn : ¬ count > TOTAL_SECTORS := Nat.not_lt.mpr hc
  have hcalls : (flash_erase 0xff count w).2.calls = w.calls ++
      [ .HAL_GPIO_WritePin .LED2 true, .HAL_FLASH_Unlock,
        .HAL_FLASHEx_Erase mass_erase_descriptor,
        .HAL_FLASH_Lock, .HAL_GPIO_WritePin .LED2 false ] := by
    simp [flash_erase, hn, World.call, World.next_status, mass_erase_descriptor]
  refine ⟨hcalls, ?_, rfl, ?_⟩
  · rw [hcalls]
    simp [erase_requests_append, erase_requests]
  · simp [flash_erase, hn, World.call, World.next_status]

theorem C10_mass_erase_witness :
    (11 : Nat) ≤ TOTAL_SECTORS ∧
    (flash_erase 0xff 11 world0).2.calls = world0.calls ++
      [ .HAL_GPIO_WritePin .LED2 true, .HAL_FLASH_Unlock,
        .HAL_FLASHEx_Erase mass_erase_descriptor,
        .HAL_FLASH_Lock, .HAL_GPIO_WritePin .LED2 false ] ∧
    erase_requests (flash_erase 0xff 11 world0).2.calls
      = erase_requests world0.calls ++ [mass_erase_descriptor] ∧
    mass_erase_descriptor.TypeErase = .FLASH_TYPEERASE_MASSERASE ∧
    (flash_erase 0xff 11 world0).1 = world0.hal 0 % 256 :=
  ⟨by decide, C10_mass_erase 11 world0 (by decide)⟩

/-! ## Sector erase (claims C11 to C13) -/

/-- The calls `flash_erase` makes when it reaches the erase primitive. -/
theorem flash_erase_calls (s c : Nat) (w : World) (hc : c ≤ TOTAL_SECTORS)
    (hs : s = 0xff ∨ s < 8) :
    (flash_erase s c w).2.calls = w.calls ++
      [ .HAL_GPIO_WritePin .LED2 true, .HAL_FLASH_Unlock,
        .HAL_FLASHEx_Erase
          (if s = 0xff then mass_erase_descriptor
           else sector_erase_descriptor s (min c (8 - s))),
        .HAL_FLASH_Lock, .HAL_GPIO_WritePin .LED2 false ] ∧
    (flash_erase s c w).1 = w.hal 0 % 256 := by
  have hn : ¬ c > TOTAL_SECTORS := Nat.not_lt.mpr hc
  by_cases h : s = 0xff
  · subst h
    simp [flash_erase, hn, World.call, World.next_status, mass_erase_descriptor]
  · have h8 : s < 8 := by
      rcases hs with h1 | h1
      · exact absurd h1 h
      · exact h1
    have hmod : (8 - s) % 256 = 8 - s := Nat.mod_eq_of_lt (by omega)
    have hmin : (if c > 8 - s then 8 - s else c) = min c (8 - s) := by
      by_cases hgt : c > 8 - s
      · rw [if_pos hgt]; omega
      · rw [if_neg hgt]; omega
    simp [flash_erase, hn, h, h8, hmod, hmin, World.call, World.next_status,
      sector_erase_descriptor]

/-- The calls `flash_erase` makes when it rejects its arguments. -/
theorem flash_erase_rejects (s c : Nat) (w : World)
    (h : TOTAL_SECTORS < c ∨ (8 ≤ s ∧ s ≠ 0xff)) :
    flash_erase s c w = (INVALID_SECTOR, w.call (.HAL_GPIO_WritePin .LED2 true)) := by
  by_cases hc : c > TOTAL_SECTORS
  · simp [flash_erase, hc]
  · rcases h with h | ⟨h8, hff⟩
    · exact absurd h hc
    · have hs : ¬ (s = 0xff ∨ s < 8) := by
        intro h; rcases h with h | h
        · exact hff h
        · omega
      simp only [flash_erase, if_neg hc, if_neg hs]

/-- C11: flash_erase returns INVALID_SECTOR and makes no flash call at all (no
unlock, no erase, no lock) whenever count > TOTAL_SECTORS (11) or the start
sector is at least 8 and not 0xFF; and the calls it makes contain no flash call
only for such arguments. -/
theorem C11_invalid_sector (s c : Nat) (w : World) :
    ∃ new, (flash_erase s c w).2.calls = w.calls ++ new ∧
      ((TOTAL_SECTORS < c ∨ (8 ≤ s ∧ s ≠ 0xff)) →
        (flash_erase s c w).1 = INVALID_SECTOR ∧ flash_calls new = []) ∧
      (flash_calls new = [] → (TOTAL_SECTORS < c ∨ (8 ≤ s ∧ s ≠ 0xff))) := by
  by_cases h : TOTAL_SECTORS < c ∨ (8 ≤ s ∧ s ≠ 0xff)
  · refine ⟨[.HAL_GPIO_WritePin .LED2 true], ?_, ?_, fun _ => h⟩
    · rw [flash_erase_rejects s c w h]; rfl
    · intro _
      rw [flash_erase_rejects s c w h]
      exact ⟨rfl, rfl⟩
  · have hc : c ≤ TOTAL_SECTORS := by omega
    have hs : s = 0xff ∨ s < 8 := by omega
    refine ⟨_, (flash_erase_calls s c w hc hs).1, fun h2 => absurd h2 h, ?_⟩
    intro hf
    simp [flash_calls, is_flash_call] at hf

/-- C12: for every start sector s < 8 and every count c up to TOTAL_SECTORS,
flash_erase takes the erase path (it returns the status reported by the erase
primitive, which is not INVALID_SECTOR for a status of the HAL range 0..3) and
requests a sector erase starting at s of exactly min(c, 8 - s) sectors, so that
s plus the erased count never exceeds 8. -/
theorem C12_sector_count_clamped (s c : Nat) (w : World) (hs : s < 8)
    (hc : c ≤ TOTAL_SECTORS) :
    (flash_erase s c w).2.calls = w.calls ++
      [ .HAL_GPIO_WritePin .LED2 true, .HAL_FLASH_Unlock,
        .HAL_FLASHEx_Erase (sector_erase_descriptor s (min c (8 - s))),
        .HAL_FLASH_Lock, .HAL_GPIO_WritePin .LED2 false ] ∧
    (flash_erase s c w).1 = w.hal 0 % 256 ∧
    (w.hal 0 ≤ 3 → (flash_erase s c w).1 ≠ INVALID_SECTOR) ∧
    s + min c (8 - s) ≤ 8 := by
  have h := flash_erase_calls s c w hc (Or.inr hs)
  have hff : ¬ s = 0xff := by omega
  rw [if_neg hff] at h
  refine ⟨h.1, h.2, ?_, by omega⟩
  intro h3
  rw [h.2]
  simp only [INVALID_SECTOR]
  omega

theorem C12_sector_count_clamped_witness :
    (5 : Nat) < 8 ∧ (10 : Nat) ≤ TOTAL_SECTORS ∧
    ((flash_erase 5 10 world0).2.calls = world0.calls ++
      [ .HAL_GPIO_WritePin .LED2 true, .HAL_FLASH_Unlock,
        .HAL_FLASHEx_Erase (sector_erase_descriptor 5 3),
        .HAL_FLASH_Lock, .HAL_GPIO_WritePin .LED2 false ] ∧
    (flash_erase 5 10 world0).1 = world0.hal 0 % 256 ∧
    (world0.hal 0 ≤ 3 → (flash_erase 5 10 world0).1 ≠ INVALID_SECTOR) ∧
    5 + min 10 (8 - 5) ≤ 8) :=
  ⟨by decide, by decide, C12_sector_count_clamped 5 10 world0 (by decide) (by decide)⟩

/-- C13: for all arguments and every status the erase primitive reports, the
flash calls flash_erase makes are either none or exactly unlock, one erase,
lock, in that order: the erase primitive is called only between an unlock and a
lock, and flash_erase never returns after an unlock without the lock. -/
theorem C13_lock_discipline (s c : Nat) (w : World) :
    ∃ new, (flash_erase s c w).2.calls = w.calls ++ new ∧
      (flash_calls new = [] ∨
        ∃ d, flash_calls new = [.HAL_FLASH_Unlock, .HAL_FLASHEx_Erase d, .HAL_FLASH_Lock]) := by
  by_cases h : TOTAL_SECTORS < c ∨ (8 ≤ s ∧ s ≠ 0xff)
  · refine ⟨[.HAL_GPIO_WritePin .LED2 true], ?_, Or.inl rfl⟩
    rw [flash_erase_rejects s c w h]; rfl
  · have hc : c ≤ TOTAL_SECTORS := by omega
    have hs : s = 0xff ∨ s < 8 := by omega
    exact ⟨_, (flash_erase_calls s c w hc hs).1, Or.inr ⟨_, rfl⟩⟩

/-! ## Flash programming (claim C14) -/

theorem rd_of_lt (buf : List Nat) (i : Nat) (h : i < buf.length) :
    rd buf (i : Int) = some (buf.getD i 0) := by
  simp [rd, List.getD, List.getElem?_eq_getElem h]

/-- The loop of `mem_write`: `n` program calls from index `i` on, each taking one
status from the stream; the status kept is that of the last call. -/
theorem mem_write_loop_spec (bytes : List Nat) (a : Nat) :
    ∀ (n i status : Nat) (w : World), i + n ≤ bytes.length →
      ∃ w', mem_write_loop bytes a n i status w
          = some (if n = 0 then status else w.hal (n - 1) % 256, w') ∧
        w'.calls = w.calls ++ program_calls bytes a i n ∧
        w'.hal = (fun k => w.hal (k + n)) ∧
        w'.m_device = w.m_device ∧ w'.m_message = w.m_message ∧ w'.buff_tx = w.buff_tx := by
  intro n
  induction n with
  | zero =>
    intro i status w _
    exact ⟨w, rfl, by simp [program_calls], rfl, rfl, rfl, rfl⟩
  | succ n ih =>
    intro i status w h
    have hi : i < bytes.length := by omega
    obtain ⟨w', hw', hcalls, hhal, hd, hm, hb⟩ :=
      ih (i + 1) ((w.call (.HAL_FLASH_Program ((a + i) % 2 ^ 32) (bytes.getD i 0))).next_status.1
        % 256) (w.call (.HAL_FLASH_Program ((a + i) % 2 ^ 32) (bytes.getD i 0))).next_status.2
        (by omega)
    refine ⟨w', ?_, ?_, ?_, ?_, ?_, ?_⟩
    · simp only [mem_write_loop, rd_of_lt bytes i hi, Option.some_bind]
      rw [hw']
      by_cases hn : n = 0
      · subst hn
        simp [World.next_status, World.call]
      · have h1 : n - 1 + 1 = n := by omega
        simp [hn, World.next_status, World.call, h1]
    · rw [hcalls]
      simp [World.next_status, World.call, program_calls, List.range'_succ]
    · rw [hhal]
      funext k
      simp [World.next_status, World.call, Nat.add_assoc, Nat.add_comm 1 n]
    · rw [hd]; rfl
    · rw [hm]; rfl
    · rw [hb]; rfl

/-- C14: for every byte buffer holding at least len bytes, every address a and
every stream of statuses of the program primitive, mem_write returns after
making exactly these calls: LED on, unlock, then len byte-program calls in the
order i = 0..len-1 at address (a + i) mod 2^32 with value bytes[i], then lock,
LED off. All len calls are made whatever statuses are reported, and the value
returned is the status of the last program call (as a byte), or HAL_OK when
len = 0. -/
theorem C14_mem_write_calls (bytes : List Nat) (a len : Nat) (w : World)
    (hlen : len ≤ bytes.length) :
    ∃ w', mem_write bytes a len w
        = some (if len = 0 then HAL_OK else w.hal (len - 1) % 256, w') ∧
      w'.calls = w.calls ++
        ([.HAL_GPIO_WritePin .LED2 true, .HAL_FLASH_Unlock] ++
          (List.range len).map
            (fun i => HwCall.HAL_FLASH_Program ((a + i) % 2 ^ 32) (bytes.getD i 0)) ++
          [.HAL_FLASH_Lock, .HAL_GPIO_WritePin .LED2 false]) ∧
      flash_calls (w'.calls.drop w.calls.length) =
        [.HAL_FLASH_Unlock] ++
          (List.range len).map
            (fun i => HwCall.HAL_FLASH_Program ((a + i) % 2 ^ 32) (bytes.getD i 0)) ++
          [.HAL_FLASH_Lock] := by
  obtain ⟨w1, hw1, hcalls, _, _, _, _⟩ :=
    mem_write_loop_spec bytes a len 0 HAL_OK
      ((w.call (.HAL_GPIO_WritePin .LED2 true)).call .HAL_FLASH_Unlock) (by omega)
  have hc : ((w1.call .HAL_FLASH_Lock).call (.HAL_GPIO_WritePin .LED2 false)).calls
      = w.calls ++
        ([.HAL_GPIO_WritePin .LED2 true, .HAL_FLASH_Unlock] ++
          (List.range len).map
            (fun i => HwCall.HAL_FLASH_Program ((a + i) % 2 ^ 32) (bytes.getD i 0)) ++
          [.HAL_FLASH_Lock, .HAL_GPIO_WritePin .LED2 false]) := by
    simp [World.call, hcalls, program_calls, List.range_eq_range']
  refine ⟨(w1.call .HAL_FLASH_Lock).call (.HAL_GPIO_WritePin .LED2 false), ?_, hc, ?_⟩
  · simp only [mem_write, hw1, Option.map_some']
    simp [World.call]
  · rw [hc, List.drop_left]
    simp only [flash_calls, List.filter_append, List.filter_map]
    have hall : List.filter (is_flash_call ∘
        fun i => HwCall.HAL_FLASH_Program ((a + i) % 2 ^ 32) (bytes.getD i 0)) (List.range len)
        = List.range len := by
      apply List.filter_eq_self.mpr
      intro x _
      rfl
    rw [hall]
    rfl

theorem C14_mem_write_calls_witness :
    (4 : Nat) ≤ [0xAA, 0xBB, 0xCC, 0xDD].length ∧
    ∃ w', mem_write [0xAA, 0xBB, 0xCC, 0xDD] 0x08000010 4 world0
        = some (if 4 = 0 then HAL_OK else world0.hal (4 - 1) % 256, w') ∧
      w'.calls = world0.calls ++
        ([.HAL_GPIO_WritePin .LED2 true, .HAL_FLASH_Unlock] ++
          (List.range 4).map
            (fun i => HwCall.HAL_FLASH_Program ((0x08000010 + i) % 2 ^ 32)
              ([0xAA, 0xBB, 0xCC, 0xDD].getD i 0)) ++
          [.HAL_FLASH_Lock, .HAL_GPIO_WritePin .LED2 false]) ∧
      flash_calls (w'.calls.drop world0.calls.length) =
        [.HAL_FLASH_Unlock] ++
          (List.range 4).map
            (fun i => HwCall.HAL_FLASH_Program ((0x08000010 + i) % 2 ^ 32)
              ([0xAA, 0xBB, 0xCC, 0xDD].getD i 0)) ++
          [.HAL_FLASH_Lock] :=
  ⟨by decide, C14_mem_write_calls [0xAA, 0xBB, 0xCC, 0xDD] 0x08000010 4 world0 (by decide)⟩

/-! ## Dispatch (claims C15 to C19) -/

/-- C15: for every command record whose command_type is neither Read (1) nor
Write (2), process_data returns BL_ERR_INVALID_CMD_TYPE and leaves everything
as it was: no flash, transmit or jump call is made and the command record and
the device state are unchanged. -/
theorem C15_invalid_cmd_type (w : World)
    (hr : w.m_message.command_type ≠ CMD_TYPE_READ)
    (hw : w.m_message.command_type ≠ CMD_TYPE_WRITE) :
    process_data w = .returned BL_Error_Handler_e.BL_ERR_INVALID_CMD_TYPE.toNat w := by
  simp [process_data, hr, hw]

theorem C15_invalid_cmd_type_witness :
    world0.m_message.command_type ≠ CMD_TYPE_READ ∧
    world0.m_message.command_type ≠ CMD_TYPE_WRITE ∧
    process_data world0 = .returned BL_Error_Handler_e.BL_ERR_INVALID_CMD_TYPE.toNat world0 :=
  ⟨by decide, by decide, C15_invalid_cmd_type world0 (by decide) (by decide)⟩

/-- C16: for every command record whose target is none of FlashErase 0x01,
MemWrite 0x02, JumpApp 0x03, ChipReset 0x04, GetStatus 0x05, Unit6 0x06 and
Unit7 0x08, process_data returns BL_ERR_INVALID_TARGET when command_type is Read
and when it is Write, and leaves everything as it was: no flash, transmit or
jump call is made. -/
theorem C16_invalid_target (w : World)
    (ht : w.m_message.target ∉ [TARGET_FLASH_ERASE, TARGET_MEM_WRITE, TARGET_JUMP_APP,
      TARGET_CHIP_RESET, TARGET_GET_STATUS, UNIT_ADDRESS_6, UNIT_ADDRESS_7])
    (hct : w.m_message.command_type = CMD_TYPE_READ ∨
      w.m_message.command_type = CMD_TYPE_WRITE) :
    process_data w = .returned BL_Error_Handler_e.BL_ERR_INVALID_TARGET.toNat w := by
  simp only [List.mem_cons, List.mem_singleton, List.not_mem_nil, or_false, not_or] at ht
  obtain ⟨h1, h2, h3, h4, h5, h6, h7⟩ := ht
  rcases hct with hct | hct
  · simp [process_data, read_process_data, hct, h1, h2, h3, h4, h5, h6, h7]
  · simp [process_data, write_process_data, hct, h1, h2, h3, h4, h5, h6, h7, CMD_TYPE_WRITE,
      CMD_TYPE_READ]

theorem C16_invalid_target_witness :
    (world_of { scenario_record with target := 0x07 }).m_message.target ∉
      [TARGET_FLASH_ERASE, TARGET_MEM_WRITE, TARGET_JUMP_APP,
        TARGET_CHIP_RESET, TARGET_GET_STATUS, UNIT_ADDRESS_6, UNIT_ADDRESS_7] ∧
    process_data (world_of { scenario_record with target := 0x07 })
      = .returned BL_Error_Handler_e.BL_ERR_INVALID_TARGET.toNat
          (world_of { scenario_record with target := 0x07 }) :=
  ⟨by decide, C16_invalid_target (world_of { scenario_record with target := 0x07 })
    (by decide) (Or.inr rfl)⟩

/-- The value and the calls of `flash_erase` depend on the world only through its
call record and status stream. -/
theorem flash_erase_congr (s c : Nat) (w v : World) (hcalls : v.calls = w.calls)
    (hhal : v.hal = w.hal) :
    (flash_erase s c v).1 = (flash_erase s c w).1 ∧
    (flash_erase s c v).2.calls = (flash_erase s c w).2.calls := by
  by_cases h : TOTAL_SECTORS < c ∨ (8 ≤ s ∧ s ≠ 0xff)
  · rw [flash_erase_rejects s c w h, flash_erase_rejects s c v h]
    simp [World.call, hcalls]
  · have hc : c ≤ TOTAL_SECTORS := by omega
    have hs : s = 0xff ∨ s < 8 := by omega
    obtain ⟨h1, h2⟩ := flash_erase_calls s c w hc hs
    obtain ⟨h3, h4⟩ := flash_erase_calls s c v hc hs
    rw [h1, h2, h3, h4, hcalls, hhal]
    exact ⟨rfl, rfl⟩

/-- C17: for every command record with command_type Write and target FlashErase,
process_data returns exactly what flash_erase(address mod 256, payload byte 0)
returns; the value returned and the calls made stay the same when the sequence
number, the data kind, address bytes 1 to 3 and payload bytes 1 to 3 are
replaced by any other values. -/
theorem C17_flash_erase_dispatch (w : World)
    (hct : w.m_message.command_type = CMD_TYPE_WRITE)
    (ht : w.m_message.target = TARGET_FLASH_ERASE)
    (hb : w.m_message.address.b0 < 256) :
    process_data w =
      .returned (flash_erase (w.m_message.address.u32 % 256) w.m_message.data.b0 w).1
        (flash_erase (w.m_message.address.u32 % 256) w.m_message.data.b0 w).2 ∧
    ∀ (cn : models_u16_u) (dt a1 a2 a3 d1 d2 d3 : Nat),
      (process_data (w.with_unused_by_erase cn dt a1 a2 a3 d1 d2 d3)).value
        = (process_data w).value ∧
      (process_data (w.with_unused_by_erase cn dt a1 a2 a3 d1 d2 d3)).world.map
          (fun x => x.calls)
        = (process_data w).world.map (fun x => x.calls) := by
  have hlow : w.m_message.address.u32 % 256 = w.m_message.address.b0 := by
    simp only [models_u32_u.u32]
    omega
  have hpd : ∀ v : World, v.m_message.command_type = CMD_TYPE_WRITE →
      v.m_message.target = TARGET_FLASH_ERASE →
      process_data v = .returned (flash_erase v.m_message.address.b0 v.m_message.data.b0 v).1
        (flash_erase v.m_message.address.b0 v.m_message.data.b0 v).2 := by
    intro v h1 h2
    simp [process_data, write_process_data, h1, h2, CMD_TYPE_WRITE, CMD_TYPE_READ]
  refine ⟨by rw [hlow]; exact hpd w hct ht, ?_⟩
  intro cn dt a1 a2 a3 d1 d2 d3
  rw [hpd w hct ht, hpd (w.with_unused_by_erase cn dt a1 a2 a3 d1 d2 d3) hct ht]
  obtain ⟨h1, h2⟩ := flash_erase_congr w.m_message.address.b0 w.m_message.data.b0 w
    (w.with_unused_by_erase cn dt a1 a2 a3 d1 d2 d3) rfl rfl
  simp only [Exec.value, Exec.world, Option.map_some']
  exact ⟨congrArg some h1, congrArg some h2⟩

theorem C17_flash_erase_dispatch_witness :
    (world_of { scenario_record with target := 0x01 }).m_message.command_type = CMD_TYPE_WRITE ∧
    (world_of { scenario_record with target := 0x01 }).m_message.target = TARGET_FLASH_ERASE ∧
    (process_data (world_of { scenario_record with target := 0x01 }) =
      .returned
        (flash_erase
          ((world_of { scenario_record with target := 0x01 }).m_message.address.u32 % 256)
          (world_of { scenario_record with target := 0x01 }).m_message.data.b0
          (world_of { scenario_record with target := 0x01 })).1
        (flash_erase
          ((world_of { scenario_record with target := 0x01 }).m_message.address.u32 % 256)
          (world_of { scenario_record with target := 0x01 }).m_message.data.b0
          (world_of { scenario_record with target := 0x01 })).2 ∧
    ∀ (cn : models_u16_u) (dt a1 a2 a3 d1 d2 d3 : Nat),
      (process_data ((world_of { scenario_record with target := 0x01 }).with_unused_by_erase
          cn dt a1 a2 a3 d1 d2 d3)).value
        = (process_data (world_of { scenario_record with target := 0x01 })).value ∧
      (process_data ((world_of { scenario_record with target := 0x01 }).with_unused_by_erase
          cn dt a1 a2 a3 d1 d2 d3)).world.map (fun x => x.calls)
        = (process_data (world_of { scenario_record with target := 0x01 })).world.map
            (fun x => x.calls)) :=
  ⟨rfl, rfl, C17_flash_erase_dispatch (world_of { scenario_record with target := 0x01 })
    rfl rfl (by decide)⟩

/-- C18: for every command record with command_type Write and target MemWrite,
process_data returns exactly what mem_write(payload bytes 0..3, address, 4)
returns: after unlock, four byte-program calls at address, address+1, address+2
and address+3 (32-bit addresses) carrying payload bytes 0, 1, 2, 3 in that
order, then lock; the value is the status of the fourth program call, and none
of this depends on the data kind of the record. -/
theorem C18_mem_write_dispatch (w : World)
    (hct : w.m_message.command_type = CMD_TYPE_WRITE)
    (ht : w.m_message.target = TARGET_MEM_WRITE) :
    ∃ r w', mem_write w.m_message.data.b w.m_message.address.u32 4 w = some (r, w') ∧
      process_data w = .returned r w' ∧
      r = w.hal 3 % 256 ∧
      w'.calls = w.calls ++
        [ .HAL_GPIO_WritePin .LED2 true, .HAL_FLASH_Unlock,
          .HAL_FLASH_Program ((w.m_message.address.u32 + 0) % 2 ^ 32) w.m_message.data.b0,
          .HAL_FLASH_Program ((w.m_message.address.u32 + 1) % 2 ^ 32) w.m_message.data.b1,
          .HAL_FLASH_Program ((w.m_message.address.u32 + 2) % 2 ^ 32) w.m_message.data.b2,
          .HAL_FLASH_Program ((w.m_message.address.u32 + 3) % 2 ^ 32) w.m_message.data.b3,
          .HAL_FLASH_Lock, .HAL_GPIO_WritePin .LED2 false ] ∧
      ∀ dt : Nat, ∃ w'', process_data (w.with_data_type dt) = .returned r w'' ∧
        w''.calls = w'.calls := by
  have hpd : ∀ v : World, v.m_message.command_type = CMD_TYPE_WRITE →
      v.m_message.target = TARGET_MEM_WRITE →
      process_data v =
        match mem_write v.m_message.data.b v.m_message.address.u32 4 v with
        | some r => .returned r.1 r.2
        | none => .undefined := by
    intro v h1 h2
    simp [process_data, write_process_data, h1, h2, CMD_TYPE_WRITE, CMD_TYPE_READ,
      TARGET_MEM_WRITE, TARGET_FLASH_ERASE]
  have hmw : ∀ v : World, mem_write v.m_message.data.b v.m_message.address.u32 4 v = _ :=
    fun v => mem_write_four v.m_message.data.b0 v.m_message.data.b1 v.m_message.data.b2
      v.m_message.data.b3 v.m_message.address.u32 v
  refine ⟨_, _, hmw w, ?_, rfl, rfl, ?_⟩
  · rw [hpd w hct ht, hmw w]
  · intro dt
    rw [hpd (w.with_data_type dt) hct ht, hmw (w.with_data_type dt)]
    exact ⟨_, rfl, rfl⟩

theorem C18_mem_write_dispatch_witness :
    (world_of scenario_record).m_message.command_type = CMD_TYPE_WRITE ∧
    (world_of scenario_record).m_message.target = TARGET_MEM_WRITE ∧
    ∃ r w', mem_write [0xAA, 0xBB, 0xCC, 0xDD] 0x08000010 4 (world_of scenario_record)
        = some (r, w') ∧
      process_data (world_of scenario_record) = .returned r w' ∧
      r = (world_of scenario_record).hal 3 % 256 ∧
      w'.calls = (world_of scenario_record).calls ++
        [ .HAL_GPIO_WritePin .LED2 true, .HAL_FLASH_Unlock,
          .HAL_FLASH_Program 0x08000010 0xAA,
          .HAL_FLASH_Program 0x08000011 0xBB,
          .HAL_FLASH_Program 0x08000012 0xCC,
          .HAL_FLASH_Program 0x08000013 0xDD,
          .HAL_FLASH_Lock, .HAL_GPIO_WritePin .LED2 false ] ∧
      ∀ dt : Nat, ∃ w'', process_data ((world_of scenario_record).with_data_type dt)
          = .returned r w'' ∧
        w''.calls = w'.calls :=
  ⟨rfl, rfl, C18_mem_write_dispatch (world_of scenario_record) rfl rfl⟩

/-- C19: for every command record with command_type Write and target JumpApp,
process_data transmits exactly one 15-byte success response for the command
(start 0xA3, sequence number, target 0x03, address, command kind 0x03, data
kind, payload, end 0x25), then waits and only then hands control to the
application at APP_START_BASE_ADDRESS (stack pointer from its first word,
vector table at it, reset handler from its second word) and does not return;
no flash call is made. -/
theorem C19_jump_after_response (w : World)
    (hct : w.m_message.command_type = CMD_TYPE_WRITE)
    (ht : w.m_message.target = TARGET_JUMP_APP)
    (hdt : w.m_message.data_type < 256) :
    ∃ w', process_data w = .no_return w' ∧
      w'.calls = w.calls ++
        [ .CDC_Transmit_FS
            [ 0xA3, w.m_message.command_number.b0, w.m_message.command_number.b1, 0x03,
              w.m_message.address.b0, w.m_message.address.b1, w.m_message.address.b2,
              w.m_message.address.b3, 0x03, w.m_message.data_type,
              w.m_message.data.b0, w.m_message.data.b1, w.m_message.data.b2,
              w.m_message.data.b3, 0x25 ] 15,
          .HAL_Delay 100,
          .set_MSP APP_START_BASE_ADDRESS,
          .set_VTOR APP_START_BASE_ADDRESS,
          .app_reset_handler (APP_START_BASE_ADDRESS + 4) ] ∧
      flash_calls (w'.calls.drop w.calls.length) = [] := by
  have hmod : w.m_message.data_type % 256 = w.m_message.data_type := Nat.mod_eq_of_lt hdt
  have hcalls : (jump_to_user_app ((response_message w).call (.HAL_Delay 100))).calls
      = w.calls ++
        [ .CDC_Transmit_FS
            [ 0xA3, w.m_message.command_number.b0, w.m_message.command_number.b1, 0x03,
              w.m_message.address.b0, w.m_message.address.b1, w.m_message.address.b2,
              w.m_message.address.b3, 0x03, w.m_message.data_type,
              w.m_message.data.b0, w.m_message.data.b1, w.m_message.data.b2,
              w.m_message.data.b3, 0x25 ] 15,
          .HAL_Delay 100,
          .set_MSP APP_START_BASE_ADDRESS,
          .set_VTOR APP_START_BASE_ADDRESS,
          .app_reset_handler (APP_START_BASE_ADDRESS + 4) ] := by
    simp [jump_to_user_app, response_message, World.call, ht, hmod, TARGET_JUMP_APP,
      BOOTLOADER_RESP_START_BYTE, BOOTLOADER_RESP_END_BYTE, CMD_TYPE_RESPONSE]
  refine ⟨jump_to_user_app ((response_message w).call (.HAL_Delay 100)), ?_, hcalls, ?_⟩
  · simp [process_data, write_process_data, hct, ht, CMD_TYPE_WRITE, CMD_TYPE_READ,
      TARGET_JUMP_APP, TARGET_FLASH_ERASE, TARGET_MEM_WRITE]
  · rw [hcalls, List.drop_left]
    rfl

theorem C19_jump_after_response_witness :
    (world_of { scenario_record with target := 0x03 }).m_message.command_type
      = CMD_TYPE_WRITE ∧
    (world_of { scenario_record with target := 0x03 }).m_message.target = TARGET_JUMP_APP ∧
    ∃ w', process_data (world_of { scenario_record with target := 0x03 }) = .no_return w' ∧
      w'.calls = (world_of { scenario_record with target := 0x03 }).calls ++
        [ .CDC_Transmit_FS
            [ 0xA3, 0x01, 0x00, 0x03, 0x10, 0x00, 0x00, 0x08, 0x03, 0x06, 0xAA, 0xBB, 0xCC,
              0xDD, 0x25 ] 15,
          .HAL_Delay 100,
          .set_MSP 0x08008000,
          .set_VTOR 0x08008000,
          .app_reset_handler 0x08008004 ] ∧
      flash_calls
        (w'.calls.drop (world_of { scenario_record with target := 0x03 }).calls.length) = [] :=
  ⟨rfl, rfl, C19_jump_after_response (world_of { scenario_record with target := 0x03 })
    rfl rfl (by decide)⟩

/-! ## The response encoder (claim C20) -/

/-- C20: for every command record (its members holding bytes), response_message
makes one transmit call of exactly 15 bytes: byte 0 = 0xA3, bytes 1-2 = the
sequence number little-endian, byte 3 = target, bytes 4-7 = the address
little-endian, byte 8 = 0x03 whatever the command kind of the record was,
byte 9 = data kind, bytes 10-13 = payload, byte 14 = 0x25; afterwards sequence
number, target, address, command kind, data kind and payload of the record are
all zero. -/
theorem C20_response_frame (w : World) (hb : w.m_message.is_bytes) :
    (response_message w).calls = w.calls ++
      [ .CDC_Transmit_FS
          [ 0xA3,
            w.m_message.command_number.u16 % 256, w.m_message.command_number.u16 / 256,
            w.m_message.target,
            w.m_message.address.u32 % 256, w.m_message.address.u32 / 2 ^ 8 % 256,
            w.m_message.address.u32 / 2 ^ 16 % 256, w.m_message.address.u32 / 2 ^ 24,
            0x03,
            w.m_message.data_type,
            w.m_message.data.b0, w.m_message.data.b1, w.m_message.data.b2,
            w.m_message.data.b3,
            0x25 ] 15 ] ∧
    (response_message w).m_message.command_number.u16 = 0 ∧
    (response_message w).m_message.target = 0 ∧
    (response_message w).m_message.address.u32 = 0 ∧
    (response_message w).m_message.command_type = 0 ∧
    (response_message w).m_message.data_type = 0 ∧
    (response_message w).m_message.data.b = [0, 0, 0, 0] := by
  obtain ⟨hc0, hc1, ht, ha0, ha1, ha2, ha3, _, hdt, _, _, _, _⟩ := hb
  have e1 : w.m_message.command_number.u16 % 256 = w.m_message.command_number.b0 := by
    simp only [models_u16_u.u16]; omega
  have e2 : w.m_message.command_number.u16 / 256 = w.m_message.command_number.b1 := by
    simp only [models_u16_u.u16]; omega
  have e3 : w.m_message.address.u32 % 256 = w.m_message.address.b0 := by
    simp only [models_u32_u.u32]; omega
  have e4 : w.m_message.address.u32 / 2 ^ 8 % 256 = w.m_message.address.b1 := by
    simp only [models_u32_u.u32]; omega
  have e5 : w.m_message.address.u32 / 2 ^ 16 % 256 = w.m_message.address.b2 := by
    simp only [models_u32_u.u32]; omega
  have e6 : w.m_message.address.u32 / 2 ^ 24 = w.m_message.address.b3 := by
    simp only [models_u32_u.u32]; omega
  have e7 : w.m_message.target % 256 = w.m_message.target := Nat.mod_eq_of_lt ht
  have e8 : w.m_message.data_type % 256 = w.m_message.data_type := Nat.mod_eq_of_lt hdt
  rw [e1, e2, e3, e4, e5, e6]
  refine ⟨?_, rfl, rfl, rfl, rfl, rfl, rfl⟩
  simp [response_message, World.call, e7, e8, BOOTLOADER_RESP_START_BYTE,
    BOOTLOADER_RESP_END_BYTE, CMD_TYPE_RESPONSE]

theorem C20_response_frame_witness :
    (world_of scenario_record).m_message.is_bytes ∧
    ((response_message (world_of scenario_record)).calls = (world_of scenario_record).calls ++
      [ .CDC_Transmit_FS
          [ 0xA3, 0x01, 0x00, 0x02, 0x10, 0x00, 0x00, 0x08, 0x03, 0x06, 0xAA, 0xBB, 0xCC, 0xDD,
            0x25 ] 15 ] ∧
    (response_message (world_of scenario_record)).m_message.command_number.u16 = 0 ∧
    (response_message (world_of scenario_record)).m_message.target = 0 ∧
    (response_message (world_of scenario_record)).m_message.address.u32 = 0 ∧
    (response_message (world_of scenario_record)).m_message.command_type = 0 ∧
    (response_message (world_of scenario_record)).m_message.data_type = 0 ∧
    (response_message (world_of scenario_record)).m_message.data.b = [0, 0, 0, 0]) :=
  ⟨by simp [BL_Message_Structure_t.is_bytes, world_of, scenario_record],
    C20_response_frame (world_of scenario_record)
      (by simp [BL_Message_Structure_t.is_bytes, world_of, scenario_record])⟩

/-! ## Shape of the result of `parse_message` -/

/-- What `pre_process_message` leaves untouched. -/
theorem pre_process_message_frame (buff : List Nat) (w w' : World)
    (h : pre_process_message buff w = some w') :
    ∃ m, w' = { w with m_message := m } := by
  rcases buff with _ | ⟨x0, _ | ⟨x1, _ | ⟨x2, _ | ⟨x3, _ | ⟨x4, _ | ⟨x5, _ | ⟨x6, _ | ⟨x7,
    _ | ⟨x8, _ | ⟨x9, _ | ⟨x10, _ | ⟨x11, _ | ⟨x12, _ | ⟨x13, rest⟩⟩⟩⟩⟩⟩⟩⟩⟩⟩⟩⟩⟩⟩ <;>
    simp [pre_process_message, rd] at h
  exact ⟨_, h.symm⟩

/-- Whatever the buffer and the length passed, a call of `parse_message` that
returns either changed nothing or left the counter at 0, the state MESSAGE_OK,
one error code, and a command record that is the old one unless the code is
BL_OK. -/
theorem parse_message_shape (buf : List Nat) (len : Nat) (w w' : World)
    (h : parse_message buf len w = some w') :
    (w.m_device.message_state = .MESSAGE_OK ∧ w' = w) ∨
    (w.m_device.message_state = .WAIT_FOR_MESSAGE ∧
      ∃ e m, w' = parsed_world w e m ∧ (e ≠ .BL_OK → m = w.m_message)) := by
  unfold parse_message at h
  by_cases hs : w.m_device.message_state = .WAIT_FOR_MESSAGE
  · right
    refine ⟨hs, ?_⟩
    rw [if_pos hs] at h
    simp only [Option.bind_eq_some] at h
    obtain ⟨b1, _, h⟩ := h
    cases b1 with
    | true =>
      rw [if_pos rfl] at h
      injection h with h
      exact ⟨.BL_ERR_INVALID_START, w.m_message, h.symm, fun _ => rfl⟩
    | false =>
      rw [if_neg Bool.false_ne_true] at h
      simp only [Option.bind_eq_some] at h
      obtain ⟨b2, _, h⟩ := h
      cases b2 with
      | true =>
        rw [if_pos rfl] at h
        injection h with h
        exact ⟨.BL_ERR_INVALID_END, w.m_message, h.symm, fun _ => rfl⟩
      | false =>
        rw [if_neg Bool.false_ne_true] at h
        by_cases h3 : len ≠ MESSAGE_LENGTH
        · rw [if_pos h3] at h
          injection h with h
          exact ⟨.BL_ERR_INVALID_FORMAT, w.m_message, h.symm, fun _ => rfl⟩
        · rw [if_neg h3] at h
          simp only [Option.bind_eq_some] at h
          obtain ⟨b3, _, h⟩ := h
          cases b3 with
          | true =>
            rw [if_pos rfl] at h
            simp only [Option.map_eq_some'] at h
            obtain ⟨w1, hw1, h⟩ := h
            obtain ⟨m, hm⟩ := pre_process_message_frame buf _ w1 hw1
            subst hm
            exact ⟨.BL_OK, m, h.symm, fun hne => absurd rfl hne⟩
          | false =>
            rw [if_neg Bool.false_ne_true] at h
            injection h with h
            exact ⟨.BL_ERR_INVALID_FORMAT, w.m_message, h.symm, fun _ => rfl⟩
  · left
    rw [if_neg hs] at h
    injection h with h
    refine ⟨?_, h.symm⟩
    cases hm : w.m_device.message_state
    · exact absurd hm hs
    · rfl

/-- A call of `parse_message` on a non-empty buffer with its length returns. -/
theorem parse_message_defined (buf : List Nat) (w : World) (hlen : 1 ≤ buf.length) :
    ∃ w', parse_message buf buf.length w = some w' := by
  by_cases hs : w.m_device.message_state = .WAIT_FOR_MESSAGE
  · obtain ⟨f, l, hf, hl⟩ := head_last_of_length buf hlen
    rw [parse_message_cases buf f l w hs hf hl]
    by_cases h15 : buf.length = 15
    · obtain ⟨x0, x1, x2, x3, x4, x5, x6, x7, x8, x9, x10, x11, x12, x13, x14, rfl⟩ :=
        length_fifteen buf h15
      rw [pre_process_message_fifteen]
      split_ifs <;> exact ⟨_, rfl⟩
    · have h15m : buf.length ≠ MESSAGE_LENGTH := h15
      simp only [if_pos h15m]
      split_ifs <;> exact ⟨_, rfl⟩
  · exact ⟨w, by simp [parse_message, hs]⟩

/-- The device state is not touched by `flash_erase`. -/
theorem flash_erase_device (s c : Nat) (w : World) :
    (flash_erase s c w).2.m_device = w.m_device := by
  unfold flash_erase
  split_ifs <;> rfl

/-- A call of `process_data` ends, by a return or by the hand-over to the
application, and does not touch the device state. -/
theorem process_data_device (w : World) :
    ∃ w', (process_data w).world = some w' ∧ w'.m_device = w.m_device := by
  unfold process_data
  split_ifs
  · exact ⟨_, rfl, rfl⟩
  · unfold write_process_data
    split_ifs
    · exact ⟨_, rfl, flash_erase_device _ _ _⟩
    · rw [show w.m_message.data.b = [w.m_message.data.b0, w.m_message.data.b1,
        w.m_message.data.b2, w.m_message.data.b3] from rfl, mem_write_four]
      exact ⟨_, rfl, rfl⟩
    · exact ⟨_, rfl, rfl⟩
    · exact ⟨_, rfl, rfl⟩
    · exact ⟨_, rfl, rfl⟩
    · exact ⟨_, rfl, rfl⟩
    · exact ⟨_, rfl, rfl⟩
    · exact ⟨_, rfl, rfl⟩
  · exact ⟨_, rfl, rfl⟩

/-! ## The error encoder and the error counter (claims C21, C22) -/

/-- C21: for every command record (its members holding bytes) and every error
code err of BL_Error_Handler_e, handle_error makes one transmit call of exactly
15 bytes: byte 0 = 0xA3, bytes 1-2 = the sequence number little-endian, byte 3 =
target, bytes 4-7 = [0xFF, 0, 0, 0], byte 8 = 0x03, byte 9 = 0x02 (U8), byte 10 =
the numeric value of err, bytes 11-13 = 0, byte 14 = 0x25; afterwards sequence
number, target, address, command kind, data kind and payload of the record are
all zero. -/
theorem C21_error_frame (err : BL_Error_Handler_e) (w : World)
    (hb : w.m_message.is_bytes) :
    (handle_error err w).calls = w.calls ++
      [ .CDC_Transmit_FS
          [ 0xA3,
            w.m_message.command_number.u16 % 256, w.m_message.command_number.u16 / 256,
            w.m_message.target,
            0xFF, 0x00, 0x00, 0x00,
            0x03,
            0x02,
            err.toNat, 0, 0, 0,
            0x25 ] 15 ] ∧
    (handle_error err w).m_message.command_number.u16 = 0 ∧
    (handle_error err w).m_message.target = 0 ∧
    (handle_error err w).m_message.address.u32 = 0 ∧
    (handle_error err w).m_message.command_type = 0 ∧
    (handle_error err w).m_message.data_type = 0 ∧
    (handle_error err w).m_message.data.b = [0, 0, 0, 0] := by
  obtain ⟨hc0, hc1, ht, _, _, _, _, _, _, _, _, _, _⟩ := hb
  have e1 : w.m_message.command_number.u16 % 256 = w.m_message.command_number.b0 := by
    simp only [models_u16_u.u16]; omega
  have e2 : w.m_message.command_number.u16 / 256 = w.m_message.command_number.b1 := by
    simp only [models_u16_u.u16]; omega
  have e7 : w.m_message.target % 256 = w.m_message.target := Nat.mod_eq_of_lt ht
  have e9 : err.toNat % 256 = err.toNat := by
    cases err <;> rfl
  rw [e1, e2]
  refine ⟨?_, rfl, rfl, rfl, rfl, rfl, rfl⟩
  simp [handle_error, World.call, e7, e9, BOOTLOADER_RESP_START_BYTE,
    BOOTLOADER_RESP_END_BYTE, CMD_TYPE_RESPONSE, DATA_TYPE_U8, TARGET_INVALID,
    models_u32_u.of_u32]

theorem C21_error_frame_witness :
    (world_of scenario_record).m_message.is_bytes ∧
    ((handle_error .BL_ERR_INVALID_TARGET (world_of scenario_record)).calls
      = (world_of scenario_record).calls ++
      [ .CDC_Transmit_FS
          [ 0xA3, 0x01, 0x00, 0x02, 0xFF, 0x00, 0x00, 0x00, 0x03, 0x02, 3, 0, 0, 0, 0x25 ]
          15 ] ∧
    (handle_error .BL_ERR_INVALID_TARGET (world_of scenario_record)).m_message.command_number.u16
      = 0 ∧
    (handle_error .BL_ERR_INVALID_TARGET (world_of scenario_record)).m_message.target = 0 ∧
    (handle_error .BL_ERR_INVALID_TARGET (world_of scenario_record)).m_message.address.u32 = 0 ∧
    (handle_error .BL_ERR_INVALID_TARGET (world_of scenario_record)).m_message.command_type = 0 ∧
    (handle_error .BL_ERR_INVALID_TARGET (world_of scenario_record)).m_message.data_type = 0 ∧
    (handle_error .BL_ERR_INVALID_TARGET (world_of scenario_record)).m_message.data.b
      = [0, 0, 0, 0]) :=
  ⟨by simp [BL_Message_Structure_t.is_bytes, world_of, scenario_record],
    C21_error_frame .BL_ERR_INVALID_TARGET (world_of scenario_record)
      (by simp [BL_Message_Structure_t.is_bytes, world_of, scenario_record])⟩

/-- C22 as stated fails: with error_counter = 0xFFFFFFFF before the call,
handle_error leaves error_counter = 0, which is not one greater than before
and is smaller than before. -/
theorem C22_counterexample :
    world_counter_max.m_device.error_counter = 0xFFFFFFFF ∧
    (handle_error .BL_ERR_INVALID_START world_counter_max).m_device.error_counter = 0 ∧
    (handle_error .BL_ERR_INVALID_START world_counter_max).m_device.error_counter
      ≠ world_counter_max.m_device.error_counter + 1 ∧
    (handle_error .BL_ERR_INVALID_START world_counter_max).m_device.error_counter
      < world_counter_max.m_device.error_counter := by
  decide

/-- C22 amended: for every device state and every error code, one call of
handle_error leaves error_counter = (old + 1) mod 2^32, which is exactly one
greater than before whenever old is below 0xFFFFFFFF, and changes no other
field of the device state (comm status, last_rx_time, message_state,
last_error). -/
theorem C22_error_counter (err : BL_Error_Handler_e) (w : World) :
    (handle_error err w).m_device.error_counter = (w.m_device.error_counter + 1) % 2 ^ 32 ∧
    (w.m_device.error_counter < 0xFFFFFFFF →
      (handle_error err w).m_device.error_counter = w.m_device.error_counter + 1) ∧
    (handle_error err w).m_device.comm_state.status = w.m_device.comm_state.status ∧
    (handle_error err w).m_device.comm_state.last_rx_time
      = w.m_device.comm_state.last_rx_time ∧
    (handle_error err w).m_device.message_state = w.m_device.message_state ∧
    (handle_error err w).m_device.last_error = w.m_device.last_error := by
  refine ⟨rfl, ?_, rfl, rfl, rfl, rfl⟩
  intro h
  show (w.m_device.error_counter + 1) % 2 ^ 32 = w.m_device.error_counter + 1
  omega

/-! ## The gate and the frame effect of `parse_message` (claims C23, C24, C26, C27) -/

/-- C23: for every non-empty buffer, valid or not, delivered while the device is
in WAIT_FOR_MESSAGE, parse_message returns with comm_state.last_rx_time = 0,
whatever error code it records. -/
theorem C23_rx_time_reset (buf : List Nat) (w : World)
    (hs : w.m_device.message_state = .WAIT_FOR_MESSAGE)
    (hlen : 1 ≤ buf.length) :
    ∃ w', parse_message buf buf.length w = some w' ∧
      w'.m_device.comm_state.last_rx_time = 0 := by
  obtain ⟨w', hw'⟩ := parse_message_defined buf w hlen
  refine ⟨w', hw', ?_⟩
  rcases parse_message_shape buf buf.length w w' hw' with ⟨hok, _⟩ | ⟨_, e, m, rfl, _⟩
  · rw [hs] at hok
    exact absurd hok (by decide)
  · rfl

theorem C23_rx_time_reset_witness :
    (status_control world0).m_device.message_state = .WAIT_FOR_MESSAGE ∧
    (status_control world0).m_device.comm_state.last_rx_time = 1 ∧
    ∃ w', parse_message [0x00] [0x00].length (status_control world0) = some w' ∧
      w'.m_device.comm_state.last_rx_time = 0 :=
  ⟨rfl, rfl, C23_rx_time_reset [0x00] (status_control world0) rfl (by decide)⟩

/-- C24: when message_state is MESSAGE_OK, parse_message on any buffer and any
length returns without changing anything: the command record and every field of
the device state are as before, so a pending command is not overwritten by a
new frame. -/
theorem C24_gate (buf : List Nat) (len : Nat) (w : World)
    (hs : w.m_device.message_state = .MESSAGE_OK) :
    parse_message buf len w = some w := by
  simp [parse_message, hs]

theorem C24_gate_witness :
    (accepted_world 1 0 2 0x10 0 0 8 2 6 0xAA 0xBB 0xCC 0xDD world0).m_device.message_state
      = .MESSAGE_OK ∧
    parse_message device_start_frame 15
        (accepted_world 1 0 2 0x10 0 0 8 2 6 0xAA 0xBB 0xCC 0xDD world0)
      = some (accepted_world 1 0 2 0x10 0 0 8 2 6 0xAA 0xBB 0xCC 0xDD world0) :=
  ⟨rfl, C24_gate device_start_frame 15
    (accepted_world 1 0 2 0x10 0 0 8 2 6 0xAA 0xBB 0xCC 0xDD world0) rfl⟩

/-- C26: message_state is set and never cleared by the core. Every call of
parse_message that returns, and so every call on a non-empty buffer, valid or
not, ends with message_state = MESSAGE_OK; status_control, process_data,
response_message and handle_error leave message_state as it was, so no core
operation takes it from MESSAGE_OK back to WAIT_FOR_MESSAGE. -/
theorem C26_message_state_never_cleared :
    (∀ (buf : List Nat) (w : World), 1 ≤ buf.length →
      ∃ w', parse_message buf buf.length w = some w' ∧
        w'.m_device.message_state = .MESSAGE_OK) ∧
    (∀ (buf : List Nat) (len : Nat) (w w' : World), parse_message buf len w = some w' →
      w'.m_device.message_state = .MESSAGE_OK) ∧
    (∀ w : World, (status_control w).m_device.message_state = w.m_device.message_state) ∧
    (∀ w : World, ∃ w', (process_data w).world = some w' ∧
      w'.m_device.message_state = w.m_device.message_state) ∧
    (∀ w : World, (response_message w).m_device.message_state = w.m_device.message_state) ∧
    (∀ (err : BL_Error_Handler_e) (w : World),
      (handle_error err w).m_device.message_state = w.m_device.message_state) := by
  have hshape : ∀ (buf : List Nat) (len : Nat) (w w' : World),
      parse_message buf len w = some w' → w'.m_device.message_state = .MESSAGE_OK := by
    intro buf len w w' h
    rcases parse_message_shape buf len w w' h with ⟨hok, rfl⟩ | ⟨_, e, m, rfl, _⟩
    · exact hok
    · rfl
  refine ⟨?_, hshape, ?_, ?_, fun _ => rfl, fun _ _ => rfl⟩
  · intro buf w hlen
    obtain ⟨w', hw'⟩ := parse_message_defined buf w hlen
    exact ⟨w', hw', hshape buf buf.length w w' hw'⟩
  · intro w
    unfold status_control
    split_ifs <;> rfl
  · intro w
    obtain ⟨w', hw', hd⟩ := process_data_device w
    exact ⟨w', hw', by rw [hd]⟩

/-- C27: for every non-empty buffer for which parse_message records an error
(last_error other than BL_OK), the command record is exactly as it was,
error_counter is unchanged and nothing is transmitted or called; beside
last_error, last_rx_time and message_state, nothing has changed. -/
theorem C27_rejected_frame_atomic (buf : List Nat) (w : World) (hlen : 1 ≤ buf.length) :
    ∃ w', parse_message buf buf.length w = some w' ∧
      (w'.m_device.last_error ≠ .BL_OK →
        w'.m_message = w.m_message ∧
        w'.m_device.error_counter = w.m_device.error_counter ∧
        w'.m_device.comm_state.status = w.m_device.comm_state.status ∧
        w'.calls = w.calls ∧ w'.buff_tx = w.buff_tx ∧ w'.hal = w.hal) := by
  obtain ⟨w', hw'⟩ := parse_message_defined buf w hlen
  refine ⟨w', hw', ?_⟩
  rcases parse_message_shape buf buf.length w w' hw' with ⟨_, rfl⟩ | ⟨_, e, m, rfl, hm⟩
  · intro _
    exact ⟨rfl, rfl, rfl, rfl, rfl, rfl⟩
  · intro he
    exact ⟨hm he, rfl, rfl, rfl, rfl, rfl⟩

theorem C27_rejected_frame_atomic_witness :
    1 ≤ scenario_frame.length ∧
    ∃ w', parse_message scenario_frame scenario_frame.length (world_of scenario_record)
        = some w' ∧
      (w'.m_device.last_error ≠ .BL_OK →
        w'.m_message = (world_of scenario_record).m_message ∧
        w'.m_device.error_counter = (world_of scenario_record).m_device.error_counter ∧
        w'.m_device.comm_state.status = (world_of scenario_record).m_device.comm_state.status ∧
        w'.calls = (world_of scenario_record).calls ∧
        w'.buff_tx = (world_of scenario_record).buff_tx ∧
        w'.hal = (world_of scenario_record).hal) :=
  ⟨by decide, C27_rejected_frame_atomic scenario_frame (world_of scenario_record) (by decide)⟩

/-! ## The liveness counter (claims C25, C28) -/

/-- The counter and the status after one call of `status_control`. -/
theorem status_control_step (v : World) :
    (status_control v).m_device.comm_state.last_rx_time
      = min (v.m_device.comm_state.last_rx_time + 1) 1000 ∧
    ((status_control v).m_device.comm_state.status = .COMM_OFFLINE ↔
      1000 ≤ v.m_device.comm_state.last_rx_time) ∧
    ((status_control v).m_device.comm_state.status = .COMM_ONLINE ↔
      v.m_device.comm_state.last_rx_time < 1000) := by
  unfold status_control
  by_cases h : v.m_device.comm_state.last_rx_time ≥ 1000
  · rw [if_pos h]
    refine ⟨?_, ?_, ?_⟩
    · show 1000 = min (v.m_device.comm_state.last_rx_time + 1) 1000
      omega
    · exact ⟨fun _ => h, fun _ => rfl⟩
    · constructor
      · intro hc
        have hc' : BL_Device_Comm_Status_e.COMM_OFFLINE = .COMM_ONLINE := hc
        exact absurd hc' (by decide)
      · intro hc
        omega
  · rw [if_neg h]
    refine ⟨?_, ?_, ?_⟩
    · show (v.m_device.comm_state.last_rx_time + 1) % 2 ^ 32
        = min (v.m_device.comm_state.last_rx_time + 1) 1000
      omega
    · constructor
      · intro hc
        have hc' : BL_Device_Comm_Status_e.COMM_ONLINE = .COMM_OFFLINE := hc
        exact absurd hc' (by decide)
      · intro hc
        exact absurd hc h
    · exact ⟨fun _ => by omega, fun _ => rfl⟩

/-- C25: after any call of status_control, from any prior value,
last_rx_time <= 1000; and last_rx_time <= 1000 is preserved by status_control,
by parse_message (on every call that returns, and it returns on every non-empty
buffer), by process_data (however it ends), by response_message and by
handle_error. -/
theorem C25_rx_time_ceiling :
    (∀ w : World, (status_control w).m_device.comm_state.last_rx_time ≤ 1000) ∧
    (∀ (buf : List Nat) (len : Nat) (w w' : World),
      w.m_device.comm_state.last_rx_time ≤ 1000 → parse_message buf len w = some w' →
      w'.m_device.comm_state.last_rx_time ≤ 1000) ∧
    (∀ (buf : List Nat) (w : World), 1 ≤ buf.length →
      w.m_device.comm_state.last_rx_time ≤ 1000 →
      ∃ w', parse_message buf buf.length w = some w' ∧
        w'.m_device.comm_state.last_rx_time ≤ 1000) ∧
    (∀ w : World, w.m_device.comm_state.last_rx_time ≤ 1000 →
      ∃ w', (process_data w).world = some w' ∧
        w'.m_device.comm_state.last_rx_time ≤ 1000) ∧
    (∀ w : World, w.m_device.comm_state.last_rx_time ≤ 1000 →
      (response_message w).m_device.comm_state.last_rx_time ≤ 1000) ∧
    (∀ (err : BL_Error_Handler_e) (w : World), w.m_device.comm_state.last_rx_time ≤ 1000 →
      (handle_error err w).m_device.comm_state.last_rx_time ≤ 1000) := by
  have hparse : ∀ (buf : List Nat) (len : Nat) (w w' : World),
      w.m_device.comm_state.last_rx_time ≤ 1000 → parse_message buf len w = some w' →
      w'.m_device.comm_state.last_rx_time ≤ 1000 := by
    intro buf len w w' hw h
    rcases parse_message_shape buf len w w' h with ⟨_, rfl⟩ | ⟨_, e, m, rfl, _⟩
    · exact hw
    · exact Nat.zero_le _
  refine ⟨?_, hparse, ?_, ?_, fun _ h => h, fun _ _ h => h⟩
  · intro w
    rw [(status_control_step w).1]
    omega
  · intro buf w hlen hw
    obtain ⟨w', hw'⟩ := parse_message_defined buf w hlen
    exact ⟨w', hw', hparse buf buf.length w w' hw hw'⟩
  · intro w hw
    obtain ⟨w', hw', hd⟩ := process_data_device w
    exact ⟨w', hw', by rw [hd]; exact hw⟩

/-- A call of `status_control` changes the communication state only. -/
theorem status_control_frame (v : World) :
    status_control v = { v with m_device := { v.m_device with
      comm_state := (status_control v).m_device.comm_state } } := by
  unfold status_control
  split_ifs <;> rfl

/-- Calls of `status_control` in a row change the communication state only. -/
theorem status_control_iterate_frame (n : Nat) (v : World) :
    status_control^[n] v = { v with m_device := { v.m_device with
      comm_state := (status_control^[n] v).m_device.comm_state } } := by
  induction n with
  | zero => rfl
  | succ n ih =>
    rw [Function.iterate_succ_apply', status_control_frame (status_control^[n] v)]
    generalize (status_control (status_control^[n] v)).m_device.comm_state = c
    rw [ih]

/-- The counter after `n` calls of `status_control` in a row, from 0. -/
theorem status_control_iterate_rx (w : World)
    (h0 : w.m_device.comm_state.last_rx_time = 0) (n : Nat) :
    (status_control^[n] w).m_device.comm_state.last_rx_time = min n 1000 := by
  induction n with
  | zero => simpa using h0
  | succ n ih =>
    rw [Function.iterate_succ_apply', (status_control_step _).1, ih]
    omega

/-- The communication state after `n + 1` calls of `status_control` in a row,
from counter 0. -/
theorem status_control_iterate_comm (w : World)
    (h0 : w.m_device.comm_state.last_rx_time = 0) (n : Nat) :
    (status_control^[n + 1] w).m_device.comm_state
      = { status := if 1000 ≤ n then .COMM_OFFLINE else .COMM_ONLINE
          last_rx_time := min (n + 1) 1000 } := by
  have h1 := status_control_iterate_rx w h0 (n + 1)
  have h2 : (status_control^[n + 1] w).m_device.comm_state.status
      = if 1000 ≤ n then .COMM_OFFLINE else .COMM_ONLINE := by
    rw [Function.iterate_succ_apply']
    by_cases h : 1000 ≤ n
    · rw [if_pos h]
      exact (status_control_step _).2.1.mpr (by rw [status_control_iterate_rx w h0 n]; omega)
    · rw [if_neg h]
      exact (status_control_step _).2.2.mpr (by rw [status_control_iterate_rx w h0 n]; omega)
  rcases hc : (status_control^[n + 1] w).m_device.comm_state with ⟨st, rx⟩
  rw [hc] at h1 h2
  simp only at h1 h2
  rw [h1, h2]

/-- C28 as stated fails at n = 0: after 1001 calls of status_control from reset
and then one frame, parse_message has cleared the counter but not the status,
so the device is at last_rx_time = 0 with status COMM_OFFLINE; from that state,
after 0 calls of status_control the status is COMM_OFFLINE although 0 < 1001. -/
theorem C28_counterexample :
    (parse_message [0x00] 1 (status_control^[1001] world0)).map
        (fun w => w.m_device.comm_state) = some world_offline.m_device.comm_state ∧
    world_offline.m_device.comm_state.last_rx_time = 0 ∧
    (status_control^[0] world_offline).m_device.comm_state.last_rx_time = min 0 1000 ∧
    (status_control^[0] world_offline).m_device.comm_state.status = .COMM_OFFLINE ∧
    ¬ (1001 ≤ 0) ∧
    ¬ ((status_control^[0] world_offline).m_device.comm_state.status = .COMM_OFFLINE ↔
      1001 ≤ 0) := by
  refine ⟨?_, by decide, by decide, by decide, by decide, by decide⟩
  rw [status_control_iterate_frame 1001 world0, status_control_iterate_comm world0 rfl 1000]
  decide

/-- C28 amended: starting from last_rx_time = 0, after n calls of status_control
in a row last_rx_time = min(n, 1000), and, once a call has been made (n >= 1; or
for every n when the status was COMM_ONLINE at the start), the status is
COMM_OFFLINE if and only if n >= 1001. One call sets COMM_OFFLINE exactly when
the counter was already >= 1000 before it, so after 1000 calls the counter is
1000 and the status COMM_ONLINE. -/
theorem C28_offline_threshold (w : World) (h0 : w.m_device.comm_state.last_rx_time = 0) :
    (∀ n : Nat, (status_control^[n] w).m_device.comm_state.last_rx_time = min n 1000) ∧
    (∀ n : Nat, (1 ≤ n ∨ w.m_device.comm_state.status = .COMM_ONLINE) →
      ((status_control^[n] w).m_device.comm_state.status = .COMM_OFFLINE ↔ 1001 ≤ n)) ∧
    (∀ v : World, (status_control v).m_device.comm_state.status = .COMM_OFFLINE ↔
      1000 ≤ v.m_device.comm_state.last_rx_time) ∧
    ((status_control^[1000] w).m_device.comm_state.last_rx_time = 1000 ∧
      (status_control^[1000] w).m_device.comm_state.status = .COMM_ONLINE) := by
  have hrx : ∀ n : Nat,
      (status_control^[n] w).m_device.comm_state.last_rx_time = min n 1000 := by
    intro n
    induction n with
    | zero => simpa using h0
    | succ n ih =>
      rw [Function.iterate_succ_apply', (status_control_step _).1, ih]
      omega
  have hst : ∀ n : Nat, (1 ≤ n ∨ w.m_device.comm_state.status = .COMM_ONLINE) →
      ((status_control^[n] w).m_device.comm_state.status = .COMM_OFFLINE ↔ 1001 ≤ n) := by
    intro n hn
    cases n with
    | zero =>
      rcases hn with hn | hn
      · omega
      · simp only [Function.iterate_zero, id_eq, hn]
        constructor
        · intro hc
          exact absurd hc (by decide)
        · intro hc
          omega
    | succ k =>
      rw [Function.iterate_succ_apply', (status_control_step _).2.1, hrx k]
      omega
  refine ⟨hrx, hst, fun v => (status_control_step v).2.1, ?_, ?_⟩
  · rw [hrx 1000]
    rfl
  · have h := hst 1000 (Or.inl (by omega))
    cases hc : (status_control^[1000] w).m_device.comm_state.status
    · rfl
    · rw [hc] at h
      have := h.mp rfl
      omega

theorem C28_offline_threshold_witness :
    world_offline.m_device.comm_state.last_rx_time = 0 ∧
    ((∀ n : Nat,
      (status_control^[n] world_offline).m_device.comm_state.last_rx_time = min n 1000) ∧
    (∀ n : Nat, (1 ≤ n ∨ world_offline.m_device.comm_state.status = .COMM_ONLINE) →
      ((status_control^[n] world_offline).m_device.comm_state.status = .COMM_OFFLINE ↔
        1001 ≤ n)) ∧
    (∀ v : World, (status_control v).m_device.comm_state.status = .COMM_OFFLINE ↔
      1000 ≤ v.m_device.comm_state.last_rx_time) ∧
    ((status_control^[1000] world_offline).m_device.comm_state.last_rx_time = 1000 ∧
      (status_control^[1000] world_offline).m_device.comm_state.status = .COMM_ONLINE)) :=
  ⟨rfl, C28_offline_threshold world_offline rfl⟩

/-! ## Index safety of the codec (claim C29) -/

/-- Reading below `len` in the first `len` bytes of a buffer is reading the buffer. -/
theorem rd_take (buf : List Nat) (len : Nat) (i : Int) (h : i < (len : Int)) :
    rd (buf.take len) i = rd buf i := by
  unfold rd
  split_ifs with h0
  · have hi : i.toNat < len := by omega
    rw [List.getElem?_take_of_lt hi]
  · rfl

/-- The field reads of `pre_process_message` stay inside the first 15 bytes. -/
theorem pre_process_message_take (buf : List Nat) (w : World) :
    pre_process_message (buf.take 15) w = pre_process_message buf w := by
  unfold pre_process_message
  rw [rd_take buf 15 1 (by norm_num), rd_take buf 15 2 (by norm_num),
    rd_take buf 15 3 (by norm_num), rd_take buf 15 4 (by norm_num),
    rd_take buf 15 5 (by norm_num), rd_take buf 15 6 (by norm_num),
    rd_take buf 15 7 (by norm_num), rd_take buf 15 8 (by norm_num),
    rd_take buf 15 9 (by norm_num), rd_take buf 15 10 (by norm_num),
    rd_take buf 15 11 (by norm_num), rd_take buf 15 12 (by norm_num),
    rd_take buf 15 13 (by norm_num)]

/-- The reads of `parse_message` stay inside the first `len` bytes. -/
theorem parse_message_take (buf : List Nat) (len : Nat) (w : World) (h1 : 1 ≤ len) :
    parse_message (buf.take len) len w = parse_message buf len w := by
  unfold parse_message
  rw [rd_take buf len 0 (by omega), rd_take buf len ((len : Int) - 1) (by omega)]
  by_cases h15 : len = 15
  · subst h15
    simp only [pre_process_message_take]
  · have h15m : len ≠ MESSAGE_LENGTH := h15
    simp [h15m]

/-- With a length other than 15 the result of `parse_message` is a function of
the bytes at index 0 and index len - 1 only. -/
theorem parse_message_markers_only (buf buf' : List Nat) (len : Nat) (w : World)
    (h15 : len ≠ 15) (hf : rd buf' 0 = rd buf 0)
    (hl : rd buf' ((len : Int) - 1) = rd buf ((len : Int) - 1)) :
    parse_message buf' len w = parse_message buf len w := by
  unfold parse_message
  rw [hf, hl]
  have h15m : len ≠ MESSAGE_LENGTH := h15
  simp [h15m]

/-- C29: for every len with 1 <= len <= 255 and every buffer holding at least len
bytes, parse_message returns and reads only indices in [0, len): it returns the
same on the buffer cut to its first len bytes, where any other read has no
result. The field reads at offsets 1..13 are made only when len = 15: for another
len the result depends on the bytes at index 0 and len - 1 only, and on exactly
15 bytes pre_process_message returns. For len = 0 the end-marker read, at index
len - 1 = -1, is outside every buffer, and parse_message in WAIT_FOR_MESSAGE
has no defined result. -/
theorem C29_index_safety (buf : List Nat) (len : Nat) (w : World)
    (h1 : 1 ≤ len) (hmax : len ≤ 255) (hbuf : len ≤ buf.length) :
    (∃ w', parse_message (buf.take len) len w = some w' ∧ parse_message buf len w = some w') ∧
    (len ≠ 15 → ∀ buf' : List Nat, rd buf' 0 = rd buf 0 →
      rd buf' ((len : Int) - 1) = rd buf ((len : Int) - 1) →
      parse_message buf' len w = parse_message buf len w) ∧
    (∀ (b : List Nat) (v : World), b.length = 15 → ∃ v', pre_process_message b v = some v') ∧
    (∀ (b : List Nat) (v : World), v.m_device.message_state = .WAIT_FOR_MESSAGE →
      rd b (((0 : Nat) : Int) - 1) = none ∧ parse_message b 0 v = none) := by
  have hlen255 : len ≤ 255 := hmax
  have htl : (buf.take len).length = len := by
    rw [List.length_take]
    omega
  refine ⟨?_, ?_, ?_, ?_⟩
  · obtain ⟨w', hw'⟩ := parse_message_defined (buf.take len) w (by omega)
    rw [htl] at hw'
    exact ⟨w', hw', by rw [← parse_message_take buf len w h1]; exact hw'⟩
  · intro h15 buf' hf hl
    exact parse_message_markers_only buf buf' len w h15 hf hl
  · intro b v hb
    obtain ⟨x0, x1, x2, x3, x4, x5, x6, x7, x8, x9, x10, x11, x12, x13, x14, rfl⟩ :=
      length_fifteen b hb
    exact ⟨_, pre_process_message_fifteen _ _ _ _ _ _ _ _ _ _ _ _ _ _ _ v⟩
  · intro b v hs
    have hm : rd b (((0 : Nat) : Int) - 1) = none := by
      simp [rd]
    refine ⟨hm, ?_⟩
    unfold parse_message
    rw [if_pos hs, hm]
    rcases rd b 0 with _ | x
    · rfl
    · by_cases hx : x = BOOTLOADER_RESP_START_BYTE <;> simp [sc_and, hx]

theorem C29_index_safety_witness :
    (1 : Nat) ≤ 2 ∧ (2 : Nat) ≤ 255 ∧ 2 ≤ [0x00, 0x25, 0x77].length ∧
    ((∃ w', parse_message ([0x00, 0x25, 0x77].take 2) 2 world0 = some w' ∧
      parse_message [0x00, 0x25, 0x77] 2 world0 = some w') ∧
    ((2 : Nat) ≠ 15 → ∀ buf' : List Nat, rd buf' 0 = rd [0x00, 0x25, 0x77] 0 →
      rd buf' (((2 : Nat) : Int) - 1) = rd [0x00, 0x25, 0x77] (((2 : Nat) : Int) - 1) →
      parse_message buf' 2 world0 = parse_message [0x00, 0x25, 0x77] 2 world0) ∧
    (∀ (b : List Nat) (v : World), b.length = 15 → ∃ v', pre_process_message b v = some v') ∧
    (∀ (b : List Nat) (v : World), v.m_device.message_state = .WAIT_FOR_MESSAGE →
      rd b (((0 : Nat) : Int) - 1) = none ∧ parse_message b 0 v = none)) :=
  ⟨by decide, by decide, by decide,
    C29_index_safety [0x00, 0x25, 0x77] 2 world0 (by decide) (by decide) (by decide)⟩

/-! ## Result codes (claim C30) -/

/-- C30: the result code of process_data does not tell whether the flash was
touched. The Write record with the unrecognised target 0x07 gives code 3
(BL_ERR_INVALID_TARGET) with no flash call; the MemWrite record of the scenario,
on a flash whose program calls report HAL status 3, gives the same code 3 after
four program calls. Likewise the code 4 that flash_erase returns for an invalid
sector (INVALID_SECTOR) is the numeric value of BL_ERR_INVALID_ADDRESS. -/
theorem C30_result_code_ambiguous :
    (world_of { scenario_record with target := 0x07 }).m_message.command_type
      = CMD_TYPE_WRITE ∧
    (process_data (world_of { scenario_record with target := 0x07 })).value
      = some BL_Error_Handler_e.BL_ERR_INVALID_TARGET.toNat ∧
    BL_Error_Handler_e.BL_ERR_INVALID_TARGET.toNat = 3 ∧
    (process_data (world_of { scenario_record with target := 0x07 })).world.map
        (fun w => flash_calls w.calls) = some [] ∧
    world_flash_timeout.m_message.command_type = CMD_TYPE_WRITE ∧
    world_flash_timeout.m_message.target = TARGET_MEM_WRITE ∧
    world_flash_timeout.hal 3 = 3 ∧
    (process_data world_flash_timeout).value = some 3 ∧
    (process_data world_flash_timeout).world.map (fun w => flash_calls w.calls)
      = some [ .HAL_FLASH_Unlock,
          .HAL_FLASH_Program 0x08000010 0xAA, .HAL_FLASH_Program 0x08000011 0xBB,
          .HAL_FLASH_Program 0x08000012 0xCC, .HAL_FLASH_Program 0x08000013 0xDD,
          .HAL_FLASH_Lock ] ∧
    (flash_erase 9 1 world0).1 = INVALID_SECTOR ∧
    INVALID_SECTOR = 4 ∧
    INVALID_SECTOR = BL_Error_Handler_e.BL_ERR_INVALID_ADDRESS.toNat := by
  decide

end Bootloader
